import Mathlib

/-!
Shallow embedding of the `sa-vercel-api` repository: a family of Vercel
serverless handlers that sync a lead (email, first_name, score, tagNames)
into the Systeme.io CRM over REST.

Embedded variants:
* `handlerA` — the first handler in `src/api/contact.js` (lines 1–255);
* `handlerB` — the second handler in `src/api/contact.js` (lines 256–486);
* `handlerP2` — `src/unnamed/part_002`;
* `resolveTagsP1` — the tag-resolution loop of `src/unnamed/part_001`
  (lines 134–154).

The CRM is modelled as an oracle: one response function per REST endpoint,
threaded through a state `σ` (instantiated with `Unit` for a stateless
environment and with `Server` for an idealized CRM server).  Each handler
returns its HTTP response together with the trace of outbound CRM calls.

Modelling notes (collapses of JavaScript dynamism, uniform across variants):
* response JSON is modelled as already-parsed data of the shape the code
  reads (`json.items || json.data || []` collapses to one item list;
  `json == null` collapses to `none` / an empty list);
* ids are `Nat`; JavaScript truthiness tests on ids (`if (!contactId)`,
  `if (tagMap[key])`) are modelled exactly, with `0` falsy;
* strings are the only primitive body values besides numbers (`JsVal`).
-/

/-- A JavaScript primitive value appearing in the request body. -/
inductive JsVal where
  | str (s : String)
  | num (n : Int)
deriving Repr, DecidableEq

/-- JavaScript `String(v)` on a `JsVal`. -/
def jsString : JsVal → String
  | .str s => s
  | .num n => toString n

/-- The `tagNames` field of the request body: an array of strings, a single
non-array string, or absent (`undefined`/other falsy non-array values). -/
inductive TagsInput where
  | arr (l : List String)
  | str (s : String)
  | absent
deriving Repr, DecidableEq

/-- A CRM tag `{id, name}`. -/
structure Tag where
  id : Nat
  name : String
deriving Repr, DecidableEq

/-- A CRM contact as read by the handlers: `{id, email, tags}`. -/
structure Contact where
  id : Nat
  email : String
  tags : List Tag
deriving Repr, DecidableEq

/-- Body of a `POST /contacts/{id}/tags` call: the first `contact.js`
variant sends `{tag_id}`, the others `{tagId}`, and `part_002` sends a
bulk `{tagIds: [...]}`. -/
inductive AssignBody where
  | tag_id (tid : Nat)
  | tagId (tid : Nat)
  | tagIds (tids : List Nat)
deriving Repr, DecidableEq

/-- An outbound CRM REST call, as recorded in the handler's trace. -/
inductive Call where
  | findContact (email : String) (limit : Nat)
  | listContacts (limit : Nat)
  | createContact (email : Option String) (firstName : Option String)
      (fields : List (String × String)) (tagIds : List Nat)
  | patchContact (cid : Nat) (firstName : Option String)
      (fields : List (String × String))
  | listTags (limit : Option Nat)
  | createTag (name : String)
  | getContact (cid : Nat)
  | assignTag (cid : Nat) (body : AssignBody)
  | removeTag (cid : Nat) (tagId : Nat)
deriving Repr, DecidableEq

/-- Response to a `POST /contacts` creation call, with the fields the code
reads: `ok`, `status`, the extracted `json.id` (`none` models a null body
or a missing id), and the raw `text`. -/
structure CreateResp where
  ok : Bool
  status : Nat
  idOpt : Option Nat
  text : String
deriving Repr, DecidableEq

/-- The CRM environment: one response function per consumed endpoint,
threaded through a state `σ`.  Every response carries exactly the data the
handlers read from the parsed JSON. -/
structure Oracle (σ : Type) where
  findContact : String → Nat → σ → (Bool × List Contact) × σ
  listContacts : Nat → σ → (Bool × List Contact) × σ
  createContact : Option String → Option String → List (String × String) →
      List Nat → σ → CreateResp × σ
  patchContact : Nat → Option String → List (String × String) → σ →
      (Bool × String) × σ
  listTags : Option Nat → σ → (Bool × List Tag) × σ
  createTag : String → σ → (Bool × Option Nat) × σ
  getContact : Nat → σ → (Bool × Option Contact) × σ
  assignTag : Nat → AssignBody → σ → (Bool × String) × σ
  removeTag : Nat → Nat → σ → (Bool × String) × σ

/-- An inbound HTTP request: the method and the parsed JSON body fields. -/
structure Request where
  method : String
  email : Option String
  first_name : Option String
  score : Option JsVal
  tagNames : TagsInput
deriving Repr, DecidableEq

/-- The handler's HTTP response, with the union of the fields the variants
return (unused fields default to `none`/`[]`). -/
structure HResp where
  status : Nat
  success : Bool
  error : Option String
  contactId : Option Nat
  removedTagIds : List Nat
  assignedTagIds : List Nat
  resolvedTagIds : List Nat
  tagIds : List Nat
  tagErrors : List (String × String)
  assignErrors : List (Nat × String)
  contact : Option Contact
deriving Repr, DecidableEq

/-- An error response carrying only `status` and `error`. -/
def errResp (st : Nat) (msg : String) : HResp :=
  { status := st, success := false, error := some msg, contactId := none,
    removedTagIds := [], assignedTagIds := [], resolvedTagIds := [],
    tagIds := [], tagErrors := [], assignErrors := [], contact := none }

/-- `needle` occurs as a substring of `hay` (JS `String.includes`). -/
def strIncludes (needle hay : String) : Bool :=
  (hay.toList.tails).any (fun suf => needle.toList.isPrefixOf suf)

/- Kernel-reducible models of the JS string methods used by the handlers
(`String.trim`/`toLower`/`startsWith` from core recurse on byte positions,
which blocks evaluation inside proofs). -/

/-- JS `s.toLowerCase()` (ASCII). -/
def jsLower (s : String) : String := ⟨s.data.map Char.toLower⟩

/-- JS `s.trim()`: strip leading and trailing whitespace. -/
def jsTrim (s : String) : String :=
  ⟨((s.data.dropWhile Char.isWhitespace).reverse.dropWhile
      Char.isWhitespace).reverse⟩

/-- JS `s.startsWith(pre)`. -/
def jsStartsWith (pre s : String) : Bool := pre.data.isPrefixOf s.data

/- ### Normalization, first `contact.js` variant (lines 51–63) -/

/-- `(body.email || "").trim().toLowerCase()`. -/
def normEmailA (e : Option String) : String := jsLower (jsTrim (e.getD ""))

/-- `(body.first_name || "").trim()`. -/
def normFirstA (f : Option String) : String := jsTrim (f.getD "")

/-- `body.score !== undefined ? String(body.score).trim() : null`. -/
def normScoreA (v : Option JsVal) : Option String :=
  v.map (fun x => jsTrim (jsString x))

/-- `Array.isArray(body.tagNames) ? body.tagNames : [body.tagNames]`;
a falsy non-array becomes `[]` after the `filter(Boolean)` below, so
`absent` coerces to `[]` directly. -/
def coerceTagsA : TagsInput → List String
  | .arr l => l
  | .str s => [s]
  | .absent => []

/-- `tagNames.filter(Boolean).map(t => t.trim())` followed by the
case-sensitive `if (!tagNames.includes("sadone")) tagNames.unshift("sadone")`.
Note: no deduplication in this variant, and whitespace-only entries survive
(they pass `filter(Boolean)` and trim to `""` afterwards). -/
def normTagsA (ti : TagsInput) : List String :=
  let l := ((coerceTagsA ti).filter (fun t => t ≠ "")).map jsTrim
  if l.contains "sadone" then l else "sadone" :: l

/- ### Tag map (first variant, lines 151–153)

`existing.forEach(t => { tagMap[t.name.toLowerCase()] = t.id; })` — a later
tag overwrites an earlier one with the same lowercased name, so lookup
returns the id of the last match. -/

/-- `tagMap[key]` for the first variant's map. -/
def lookupTagA (tags : List Tag) (key : String) : Option Nat :=
  ((tags.reverse).find? (fun t => jsLower t.name = key)).map (·.id)

/-- The first variant's tag-resolution loop (lines 155–173): pure lookups,
no CRM calls; a name missing from the map (or mapping to a falsy id) is
recorded as a `"Tag not found"` error.  Returns `(resolvedTagIds, tagErrors)`
in push order. -/
def resolveA (existing : List Tag) : List String → List Nat × List (String × String)
  | [] => ([], [])
  | tname :: rest =>
    let key := jsLower tname
    let r := resolveA existing rest
    match lookupTagA existing key with
    | some id =>
        if id ≠ 0 then (id :: r.1, r.2)
        else (r.1, (tname, "Tag not found") :: r.2)
    | none => (r.1, (tname, "Tag not found") :: r.2)

/-- The set of assessment tag names removed by the first variant
(lines 183): `["sadone","saresult1","saresult2","saresult3"]`. -/
def removeSetA : List String := ["sadone", "saresult1", "saresult2", "saresult3"]

/-- The first variant's removal loop (lines 187–197): for each tag on the
contact whose lowercased name is in the assessment set, issue a DELETE and
push the id to `removedTagIds` without checking the DELETE's outcome.
Returns `(removedTagIds, calls, σ)`. -/
def removeLoopA (o : Oracle σ) (cid : Nat) :
    List Tag → σ → List Nat × List Call × σ
  | [], s => ([], [], s)
  | t :: rest, s =>
    if removeSetA.contains (jsLower t.name) then
      let s' := (o.removeTag cid t.id s).2
      let r := removeLoopA o cid rest s'
      (t.id :: r.1, .removeTag cid t.id :: r.2.1, r.2.2)
    else removeLoopA o cid rest s

/-- The first variant's assignment loop (lines 205–221): one
`POST /contacts/{cid}/tags` with body `{tag_id: tid}` per resolved id; `ok`
responses feed `assignedTagIds`, failures feed `assignErrors`.
Returns `(assignedTagIds, assignErrors, calls, σ)`. -/
def assignLoopA (o : Oracle σ) (cid : Nat) :
    List Nat → σ → List Nat × List (Nat × String) × List Call × σ
  | [], s => ([], [], [], s)
  | tid :: rest, s =>
    let resp := (o.assignTag cid (.tag_id tid) s).1
    let s' := (o.assignTag cid (.tag_id tid) s).2
    let r := assignLoopA o cid rest s'
    (if resp.1 then tid :: r.1 else r.1,
     if resp.1 then r.2.1 else (tid, resp.2) :: r.2.1,
     .assignTag cid (.tag_id tid) :: r.2.2.1, r.2.2.2)

/-- The `fields` array of the first variant's create/patch body
(lines 95–101): `first_name` and `score` entries only when truthy. -/
def fieldsA (first_name : String) (score : Option String) :
    List (String × String) :=
  (if first_name ≠ "" then [("first_name", first_name)] else []) ++
  (match score with
   | some sc => if sc ≠ "" then [("score", sc)] else []
   | none => [])

/-- Steps 3–6 of the first handler (lines 145–245), reached with the
resolved `contactId` after a successful create or update: fetch the tag
list, resolve tag ids (no creation), remove assessment tags, assign
resolved tags, re-fetch and respond.  `tr2` is the trace accumulated so
far. -/
def contactSyncTailA (o : Oracle σ) (tagNames : List String) (cid : Nat)
    (tr2 : List Call) (s2 : σ) : HResp × List Call × σ :=
  -- 3) Resolve tag ids from the fetched tag list (no creation)
  let tg := o.listTags (some 100) s2
  let s3 := tg.2
  let tr3 := tr2 ++ [Call.listTags (some 100)]
  let existing := if tg.1.1 then tg.1.2 else []
  let resolvedTagIds := (resolveA existing tagNames).1
  let tagErrors := (resolveA existing tagNames).2
  -- 4) Remove only assessment tags
  let gr := o.getContact cid s3
  let s4 := gr.2
  let tr4 := tr3 ++ [Call.getContact cid]
  match gr.1.2 with
  | none => (errResp 500 "Internal error", tr4, s4)
  | some ctc =>
    let rm := removeLoopA o cid ctc.tags s4
    let removedTagIds := rm.1
    let s5 := rm.2.2
    let tr5 := tr4 ++ rm.2.1
    -- 5) Assign new tags
    let asn := assignLoopA o cid resolvedTagIds s5
    let assignedTagIds := asn.1
    let assignErrors := asn.2.1
    let s6 := asn.2.2.2
    let tr6 := tr5 ++ asn.2.2.1
    -- 6) Final fetch
    let fin := o.getContact cid s6
    let s7 := fin.2
    let tr7 := tr6 ++ [Call.getContact cid]
    match fin.1.2 with
    | none => (errResp 500 "Internal error", tr7, s7)
    | some fc =>
      ({ status := 200, success := true, error := none,
         contactId := some cid, removedTagIds := removedTagIds,
         assignedTagIds := assignedTagIds,
         resolvedTagIds := resolvedTagIds, tagIds := [],
         tagErrors := tagErrors, assignErrors := assignErrors,
         contact := some fc }, tr7, s7)

/-- The first handler of `src/api/contact.js` (lines 1–255).
Returns `(response, trace of CRM calls, final environment state)`.
`apiKey` models `process.env.SYSTEME_API_KEY`. -/
def handlerA (o : Oracle σ) (apiKey : Option String) (req : Request)
    (s0 : σ) : HResp × List Call × σ :=
  if req.method ≠ "POST" then (errResp 405 "Use POST", [], s0)
  else if apiKey = none then (errResp 500 "Missing SYSTEME_API_KEY", [], s0)
  else
    let email := normEmailA req.email
    if email = "" then (errResp 400 "email required", [], s0)
    else
      let first_name := normFirstA req.first_name
      let score := normScoreA req.score
      let tagNames := normTagsA req.tagNames
      -- 1) Find contact
      let fr := o.findContact email 10 s0
      let s1 := fr.2
      let tr1 := [Call.findContact email 10]
      let contactId0 : Option Nat :=
        if fr.1.1 then
          match fr.1.2 with
          | [] => none
          | c :: _ => some c.id
        else none
      -- 2) Create or update (`if (!contactId)`, with 0 falsy)
      if contactId0.getD 0 = 0 then
        let crr := o.createContact (some email) none
          (fieldsA first_name score) [] s1
        let cr := crr.1
        let s2 := crr.2
        let tr2 := tr1 ++ [Call.createContact (some email) none
          (fieldsA first_name score) []]
        if ¬ cr.ok then (errResp 500 "Create failed", tr2, s2)
        else
          match cr.idOpt with
          | none => (errResp 500 "Internal error", tr2, s2)
          | some cid => contactSyncTailA o tagNames cid tr2 s2
      else
        let cid := contactId0.getD 0
        let pr := o.patchContact cid none (fieldsA first_name score) s1
        let s2 := pr.2
        let tr2 := tr1 ++ [Call.patchContact cid none
          (fieldsA first_name score)]
        if ¬ pr.1.1 then (errResp 500 "Update failed", tr2, s2)
        else contactSyncTailA o tagNames cid tr2 s2

/- ### Normalization, second `contact.js` variant (lines 274–296) -/

/-- `(email || "").toString().trim().toLowerCase()`. -/
def normEmailB (e : Option String) : String := jsLower (jsTrim (e.getD ""))

/-- `first_name ? String(first_name).trim() : ""`. -/
def normFirstB (f : Option String) : String := jsTrim (f.getD "")

/-- `(score === undefined || score === null) ? null : String(score).trim()`. -/
def normScoreB (v : Option JsVal) : Option String :=
  v.map (fun x => jsTrim (jsString x))

/-- `if (!tagNames) tagNames = []; if (!Array.isArray(tagNames))
tagNames = [String(tagNames || "")]` — a falsy value (including the empty
string) becomes `[]`. -/
def coerceTagsB : TagsInput → List String
  | .arr l => l
  | .str s => if s = "" then [] else [s]
  | .absent => []

/-- `tagNames.map(t => (t||"").toString().trim()).filter(Boolean)`. -/
def cleanTagsB (ti : TagsInput) : List String :=
  ((coerceTagsB ti).map jsTrim).filter (fun t => t ≠ "")

/-- `if (!tagNames.map(t=>t.toLowerCase()).includes("sadone"))
tagNames.unshift("sadone")`. -/
def ensureSadoneB (l : List String) : List String :=
  if (l.map jsLower).contains "sadone" then l else "sadone" :: l

/-- The second variant's order-preserving case-insensitive dedupe
(lines 290–296), with `seen` the set of lowercased keys already kept. -/
def dedupeCIAux : List String → List String → List String
  | _, [] => []
  | seen, t :: rest =>
    let k := jsLower t
    if seen.contains k then dedupeCIAux seen rest
    else t :: dedupeCIAux (k :: seen) rest

/-- Dedupe preserving order, case-insensitively (second variant). -/
def dedupeCI (l : List String) : List String := dedupeCIAux [] l

/-- The second variant's full `tagNames` pipeline. -/
def normTagsB (ti : TagsInput) : List String :=
  dedupeCI (ensureSadoneB (cleanTagsB ti))

/- ### Second `contact.js` variant: contact lookup and tag machinery -/

/-- Lines 324–328: `match = items.find(exact lowercased email) || items[0]`,
then `contactId = match && match.id ? match.id : null` (with `0` falsy;
`match.contact?.id` collapses away since contacts carry a plain `id`). -/
def contactIdOfItemsB (email : String) (items : List Contact) : Option Nat :=
  match items with
  | [] => none
  | c :: _ =>
    let m := (items.find? (fun i => jsLower i.email = email)).getD c
    if m.id ≠ 0 then some m.id else none

/-- Lines 336–339 (and 365–369): in the fallback list, only an exact email
match is accepted: `if (match) contactId = match.id || null`. -/
def contactIdOfFallbackB (email : String) (items : List Contact) : Option Nat :=
  match items.find? (fun i => jsLower i.email = email) with
  | some m => if m.id ≠ 0 then some m.id else none
  | none => none

/-- Lines 407–408: `if (t && t.name && t.id)
tagNameToId[t.name.toLowerCase()] = t.id` — modelled as an assoc list where
a later assignment shadows an earlier one (entries are prepended, lookup
takes the first hit). -/
def buildTagMapB (tags : List Tag) : List (String × Nat) :=
  tags.foldl
    (fun m t => if t.name ≠ "" ∧ t.id ≠ 0 then (jsLower t.name, t.id) :: m else m)
    []

/-- The second variant's `fields` value: `[{slug:"score",value}]` when the
normalized score is non-null, otherwise absent (modelled as `[]`). -/
def fieldsB (score : Option String) : List (String × String) :=
  match score with
  | some sc => [("score", sc)]
  | none => []

/-- The second variant's tag-resolution loop (lines 412–432): look each name
up in the (mutable) lowercased map; on a miss, `POST /tags` and either push
the new id (recording it in the map) or record a per-tag error.
Returns `(resolvedTagIds, tagErrors, calls, σ)`. -/
def resolveLoopB (o : Oracle σ) :
    List String → List (String × Nat) → σ →
    List Nat × List (String × String) × List Call × σ
  | [], _, s => ([], [], [], s)
  | tname :: rest, m, s =>
    let key := jsLower tname
    match m.lookup key with
    | some id =>
      let r := resolveLoopB o rest m s
      (id :: r.1, r.2.1, r.2.2.1, r.2.2.2)
    | none =>
      let ok := (o.createTag tname s).1.1
      let idOpt := (o.createTag tname s).1.2
      let s' := (o.createTag tname s).2
      if ok ∧ idOpt.getD 0 ≠ 0 then
        let nid := idOpt.getD 0
        let r := resolveLoopB o rest ((key, nid) :: m) s'
        (nid :: r.1, r.2.1, .createTag tname :: r.2.2.1, r.2.2.2)
      else
        let r := resolveLoopB o rest m s'
        (r.1, (tname, "create failed") :: r.2.1,
         .createTag tname :: r.2.2.1, r.2.2.2)

/-- The fixed assessment set of the second variant (line 441). -/
def assessmentSetB : List String := ["sadone", "saresult1", "saresult2", "saresult3"]

/-- Line 445's removal predicate:
`assessmentSet.has(tname) || tname.startsWith("saresult")` on the
lowercased name. -/
def removePredB (name : String) : Bool :=
  assessmentSetB.contains (jsLower name) || jsStartsWith "saresult" (jsLower name)

/-- The second variant's removal loop (lines 443–452): DELETE each matching
tag (skipping falsy ids), pushing to `removedTagIds` only when the DELETE
succeeded. -/
def removeLoopB (o : Oracle σ) (cid : Nat) :
    List Tag → σ → List Nat × List Call × σ
  | [], s => ([], [], s)
  | t :: rest, s =>
    if removePredB t.name then
      if t.id = 0 then removeLoopB o cid rest s
      else
        let ok := (o.removeTag cid t.id s).1.1
        let s' := (o.removeTag cid t.id s).2
        let r := removeLoopB o cid rest s'
        (if ok then t.id :: r.1 else r.1, .removeTag cid t.id :: r.2.1, r.2.2)
    else removeLoopB o cid rest s

/-- The second variant's assignment loop (lines 457–465): one
`POST /contacts/{cid}/tags` with body `{tagId: tid}` per resolved id. -/
def assignLoopB (o : Oracle σ) (cid : Nat) :
    List Nat → σ → List Nat × List (Nat × String) × List Call × σ
  | [], s => ([], [], [], s)
  | tid :: rest, s =>
    let resp := (o.assignTag cid (.tagId tid) s).1
    let s' := (o.assignTag cid (.tagId tid) s).2
    let r := assignLoopB o cid rest s'
    (if resp.1 then tid :: r.1 else r.1,
     if resp.1 then r.2.1 else (tid, resp.2) :: r.2.1,
     .assignTag cid (.tagId tid) :: r.2.2.1, r.2.2.2)

/-- Steps 3–5 and the final fetch of the second handler (lines 402–480),
reached with the resolved `contactId`: fetch the tag list, resolve names
to ids (creating missing tags), remove assessment tags, assign resolved
tags, re-fetch and respond.  `tr2` is the trace accumulated so far. -/
def contactSyncTailB (o : Oracle σ) (tagNames : List String) (cid : Nat)
    (tr2 : List Call) (s2 : σ) : HResp × List Call × σ :=
  -- 3) TAGS: resolve names → ids (create missing)
  let tg := o.listTags (some 500) s2
  let s3 := tg.2
  let tr3 := tr2 ++ [Call.listTags (some 500)]
  let existing := if tg.1.1 then tg.1.2 else []
  let rs := resolveLoopB o tagNames (buildTagMapB existing) s3
  let resolvedTagIds := rs.1
  let tagErrors := rs.2.1
  let s4 := rs.2.2.2
  let tr4 := tr3 ++ rs.2.2.1
  -- 4) Remove only assessment tags from the contact
  let gr := o.getContact cid s4
  let s5 := gr.2
  let tr5 := tr4 ++ [Call.getContact cid]
  let assigned := if gr.1.1 then (gr.1.2.map (·.tags)).getD [] else []
  let rm := removeLoopB o cid assigned s5
  let removedTagIds := rm.1
  let s6 := rm.2.2
  let tr6 := tr5 ++ rm.2.1
  -- 5) Assign desired tags
  let asn := assignLoopB o cid resolvedTagIds s6
  let assignedTagIds := asn.1
  let assignErrors := asn.2.1
  let s7 := asn.2.2.2
  let tr7 := tr6 ++ asn.2.2.1
  -- final fetch for returning canonical contact
  let fin := o.getContact cid s7
  let s8 := fin.2
  let tr8 := tr7 ++ [Call.getContact cid]
  ({ status := 200, success := true, error := none,
     contactId := some cid, removedTagIds := removedTagIds,
     assignedTagIds := assignedTagIds,
     resolvedTagIds := resolvedTagIds, tagIds := [],
     tagErrors := tagErrors, assignErrors := assignErrors,
     contact := if fin.1.1 then fin.1.2 else none }, tr8, s8)

/-- The second handler of `src/api/contact.js` (lines 256–486).
Returns `(response, trace of CRM calls, final environment state)`. -/
def handlerB (o : Oracle σ) (apiKey : Option String) (req : Request)
    (s0 : σ) : HResp × List Call × σ :=
  if req.method ≠ "POST" then
    (errResp 405 "Method Not Allowed - use POST", [], s0)
  else if apiKey = none then
    (errResp 500 "SYSTEME API key missing. Set SYSTEME_API_KEY in Vercel", [], s0)
  else
    let email := normEmailB req.email
    let first_name := normFirstB req.first_name
    let score := normScoreB req.score
    if email = "" then (errResp 400 "email is required", [], s0)
    else
      let tagNames := normTagsB req.tagNames
      -- 1) FIND CONTACT (first page, then a limit=100 fallback)
      let fr := o.findContact email 10 s0
      let s1 := fr.2
      let tr1 := [Call.findContact email 10]
      let contactId0 : Option Nat :=
        if fr.1.1 then contactIdOfItemsB email fr.1.2 else none
      let fb :=
        if contactId0.getD 0 = 0 then
          let lr := o.listContacts 100 s1
          ((if lr.1.1 then contactIdOfFallbackB email lr.1.2 else none),
           tr1 ++ [Call.listContacts 100], lr.2)
        else (contactId0, tr1, s1)
      let contactId1 := fb.1
      let tr1b := fb.2.1
      let s1b := fb.2.2
      -- 2) CREATE or UPDATE contact
      if contactId1.getD 0 = 0 then
        let fn := if first_name ≠ "" then some first_name else none
        let crr := o.createContact (some email) fn (fieldsB score) [] s1b
        let cr := crr.1
        let s2 := crr.2
        let tr2 := tr1b ++ [Call.createContact (some email) fn (fieldsB score) []]
        if ¬ cr.ok then
          if cr.status = 422 ∧ strIncludes "This value is already used" cr.text then
            let l2 := o.listContacts 100 s2
            let s3 := l2.2
            let tr3 := tr2 ++ [Call.listContacts 100]
            match (if l2.1.1 then contactIdOfFallbackB email l2.1.2 else none) with
            | some cid => contactSyncTailB o tagNames cid tr3 s3
            | none => (errResp 500 "Create failed", tr3, s3)
          else (errResp 500 "Create failed", tr2, s2)
        else
          if cr.idOpt.getD 0 = 0 then
            (errResp 500 "Create succeeded but no contact id returned", tr2, s2)
          else contactSyncTailB o tagNames (cr.idOpt.getD 0) tr2 s2
      else
        let cid := contactId1.getD 0
        let fn := if first_name ≠ "" then some first_name else none
        let pr := o.patchContact cid fn (fieldsB score) s1b
        let s2 := pr.2
        let tr2 := tr1b ++ [Call.patchContact cid fn (fieldsB score)]
        if ¬ pr.1.1 then (errResp 500 "Update failed", tr2, s2)
        else contactSyncTailB o tagNames cid tr2 s2

/- ### `src/unnamed/part_002` -/

/-- `encodeURIComponent(email)` where an absent body field is the JS
`undefined`, which interpolates as the string `"undefined"`. -/
def jsUrlStr (e : Option String) : String :=
  match e with
  | some s => s
  | none => "undefined"

/-- `part_002` lines 37–42: `tagMap[t.name] = t.id` over `allTags.data` —
case-sensitive keys, later entries overwrite earlier ones. -/
def lookupTagP2 (tags : List Tag) (name : String) : Option Nat :=
  ((tags.reverse).find? (fun t => t.name = name)).map (·.id)

/-- `part_002` lines 43–45:
`tagNames.map(n => tagMap[n]).filter(id => id !== undefined)` —
no creation of missing tags, and ids are kept even when `0`. -/
def tagIdsP2 (tags : List Tag) (names : List String) : List Nat :=
  names.filterMap (lookupTagP2 tags)

/-- The `fields` array `[{slug:"score",value:score}]` of `part_002`
(an `undefined` score, whose `value` key `JSON.stringify` drops, collapses
to the empty string). -/
def fieldsP2 (score : Option JsVal) : List (String × String) :=
  [("score", match score with | some v => jsString v | none => "")]

/-- The handler of `src/unnamed/part_002`.  No API-key check and no email
check: the module-level `API_KEY` is only interpolated into the
`Authorization` header, and the raw body email goes straight into the
lookup URL.  Tag assignment in the update branch is a single bulk
`POST /contacts/{id}/tags` with `{tagIds}`, and in the create branch the
ids are embedded in the creation body.  (`sysFetch` throwing on a non-JSON
upstream body is outside the model: all oracle responses are parsed JSON.)
Returns `(response, trace of CRM calls, final environment state)`. -/
def handlerP2 (o : Oracle σ) (_apiKey : Option String) (req : Request)
    (s0 : σ) : HResp × List Call × σ :=
  if req.method ≠ "POST" then (errResp 405 "Method not allowed", [], s0)
  else
    -- 1. Fetch tags & map names → IDs
    let tg := o.listTags (some 100) s0
    let tItems := tg.1.2
    let s1 := tg.2
    let tr1 := [Call.listTags (some 100)]
    match req.tagNames with
    | .str _ =>
      -- a non-array `tagNames` has no `.map`: the TypeError is caught
      (errResp 500 "Internal server error", tr1, s1)
    | ti =>
      let names := match ti with | .arr l => l | _ => []
      let tagIds := tagIdsP2 tItems names
      -- 2. Lookup contact by email (raw, unvalidated)
      let fr := o.findContact (jsUrlStr req.email) 10 s1
      let s2 := fr.2
      let tr2 := tr1 ++ [Call.findContact (jsUrlStr req.email) 10]
      let contactId0 : Option Nat :=
        match fr.1.2 with
        | [] => none
        | c :: _ => some c.id
      if contactId0.getD 0 = 0 then
        -- 3a. Create new contact (tagIds embedded in the creation body)
        let crr := o.createContact req.email req.first_name
          (fieldsP2 req.score) tagIds s2
        let cr := crr.1
        let s3 := crr.2
        let tr3 := tr2 ++ [Call.createContact req.email req.first_name
          (fieldsP2 req.score) tagIds]
        if cr.idOpt.getD 0 = 0 then
          -- `if (!create.id) throw new Error("Create failed")`
          (errResp 500 "Internal server error", tr3, s3)
        else
          ({ status := 200, success := true, error := none,
             contactId := some (cr.idOpt.getD 0), removedTagIds := [],
             assignedTagIds := [], resolvedTagIds := [], tagIds := tagIds,
             tagErrors := [], assignErrors := [], contact := none },
           tr3, s3)
      else
        -- 3b. Update existing contact (PATCH result unchecked)
        let cid := contactId0.getD 0
        let s3 := (o.patchContact cid req.first_name (fieldsP2 req.score) s2).2
        let tr3 := tr2 ++ [Call.patchContact cid req.first_name
          (fieldsP2 req.score)]
        let step4 :=
          if tagIds ≠ [] then
            (tr3 ++ [Call.assignTag cid (.tagIds tagIds)],
             (o.assignTag cid (.tagIds tagIds) s3).2)
          else (tr3, s3)
        ({ status := 200, success := true, error := none,
           contactId := some cid, removedTagIds := [], assignedTagIds := [],
           resolvedTagIds := [], tagIds := tagIds, tagErrors := [],
           assignErrors := [], contact := none }, step4.1, step4.2)

/- ### `src/unnamed/part_001`, tag-resolution loop (lines 134–154) -/

/-- The tag-resolution loop of `part_001`: look each name up in the
lowercased map; on a miss `POST /tags`, pushing the new id only when the
creation succeeded and returned a truthy id.  A failed creation is skipped
silently — the loop has no error output at all, and (unlike the second
`contact.js` variant) the map is not updated with created tags.
Returns `(resolvedTagIds, calls, σ)`. -/
def resolveTagsP1 (o : Oracle σ) :
    List String → List (String × Nat) → σ → List Nat × List Call × σ
  | [], _, s => ([], [], s)
  | tagName :: rest, m, s =>
    let key := jsLower tagName
    match m.lookup key with
    | some id =>
      let r := resolveTagsP1 o rest m s
      (id :: r.1, r.2.1, r.2.2)
    | none =>
      let ok := (o.createTag tagName s).1.1
      let idOpt := (o.createTag tagName s).1.2
      let s' := (o.createTag tagName s).2
      if ok ∧ idOpt.getD 0 ≠ 0 then
        let r := resolveTagsP1 o rest m s'
        (idOpt.getD 0 :: r.1, .createTag tagName :: r.2.1, r.2.2)
      else
        let r := resolveTagsP1 o rest m s'
        (r.1, .createTag tagName :: r.2.1, r.2.2)

/- ### An idealized CRM server

The claims about idempotency quantify over a CRM state; this is the
deterministic server model used to instantiate the oracle for them:
contacts and tags live in lists, creation allocates `nextId`, finds filter
by exact stored email, and tag assignment/removal rewrite only the `tags`
field of the targeted contact. -/

structure Server where
  tags : List Tag
  contacts : List Contact
  nextId : Nat
deriving Repr, DecidableEq

/-- Well-formedness of a server state: the id counter and all stored
contact ids are nonzero (JS truthiness treats `0` as "no id"). -/
def Server.WF (s : Server) : Prop :=
  s.nextId ≠ 0 ∧ ∀ c ∈ s.contacts, c.id ≠ 0

/-- The tag ids carried by an assignment body. -/
def AssignBody.ids : AssignBody → List Nat
  | .tag_id t => [t]
  | .tagId t => [t]
  | .tagIds l => l

/-- The deterministic CRM server as an oracle. -/
def serverOracle : Oracle Server where
  findContact := fun e lim s =>
    ((true, (s.contacts.filter (fun c => c.email = e)).take lim), s)
  listContacts := fun lim s => ((true, s.contacts.take lim), s)
  createContact := fun e _fn _fl _tg s =>
    ({ ok := true, status := 201, idOpt := some s.nextId, text := "" },
     { s with contacts := s.contacts ++ [⟨s.nextId, e.getD "", []⟩],
              nextId := s.nextId + 1 })
  patchContact := fun _ _ _ s => ((true, ""), s)
  listTags := fun _ s => ((true, s.tags), s)
  createTag := fun n s =>
    ((true, some s.nextId),
     { s with tags := s.tags ++ [⟨s.nextId, n⟩], nextId := s.nextId + 1 })
  getContact := fun cid s => ((true, s.contacts.find? (fun c => c.id = cid)), s)
  assignTag := fun cid body s =>
    ((true, ""),
     { s with contacts := s.contacts.map (fun c =>
         if c.id = cid then
           { c with tags := c.tags ++ s.tags.filter (fun t => body.ids.contains t.id) }
         else c) })
  removeTag := fun cid tid s =>
    ((true, ""),
     { s with contacts := s.contacts.map (fun c =>
         if c.id = cid then { c with tags := c.tags.filter (fun t => t.id ≠ tid) }
         else c) })

/- ### Trace helpers and a stub environment for concrete runs -/

/-- The contact id targeted by a contact-scoped call, if any. -/
def callCid : Call → Option Nat
  | .patchContact cid _ _ => some cid
  | .getContact cid => some cid
  | .assignTag cid _ => some cid
  | .removeTag cid _ => some cid
  | _ => none

/-- Is this call a `POST /contacts` contact-creation call? -/
def isCreateContactCall : Call → Bool
  | .createContact _ _ _ _ => true
  | _ => false

/-- Is this call a `POST /tags` tag-creation call? -/
def isCreateTagCall : Call → Bool
  | .createTag _ => true
  | _ => false

/-- A stateless stub CRM used in concrete witnesses and counterexamples:
`found` answers both contact searches, `tags` the tag list, `ctc` the
single-contact fetch; creations return `createId`/`tagCreateId`, and
`pOk`/`aOk`/`dOk` fix the PATCH/assign/DELETE outcomes. -/
def stubO (found : List Contact) (tags : List Tag) (ctc : Option Contact)
    (createId : Option Nat) (tagCreateId : Option Nat)
    (pOk aOk dOk : Bool) : Oracle Unit where
  findContact := fun _ _ _ => ((true, found), ())
  listContacts := fun _ _ => ((true, found), ())
  createContact := fun _ _ _ _ _ =>
    ({ ok := createId.isSome, status := 201, idOpt := createId, text := "" }, ())
  patchContact := fun _ _ _ _ => ((pOk, ""), ())
  listTags := fun _ _ => ((true, tags), ())
  createTag := fun _ _ => ((tagCreateId.isSome, tagCreateId), ())
  getContact := fun _ _ => ((true, ctc), ())
  assignTag := fun _ _ _ => ((aOk, "assign failed"), ())
  removeTag := fun _ _ _ => ((dOk, ""), ())

/- ### Loop lemmas for the first `contact.js` variant -/

/-- `removedTagIds` collects exactly the ids of the contact's
assessment-named tags, for every oracle — the DELETE outcome is never
consulted. -/
theorem removeLoopA_removed {σ : Type} (o : Oracle σ) (cid : Nat)
    (tags : List Tag) (s : σ) :
    (removeLoopA o cid tags s).1 =
      (tags.filter (fun t => removeSetA.contains (jsLower t.name))).map (·.id) := by
  induction tags generalizing s with
  | nil => simp [removeLoopA]
  | cons t rest ih =>
    by_cases h : jsLower t.name ∈ removeSetA
    · simp [removeLoopA, h, ih]
    · simp [removeLoopA, h, ih]

/-- The removal loop issues exactly one DELETE per assessment-named tag of
the contact, and nothing else. -/
theorem removeLoopA_calls {σ : Type} (o : Oracle σ) (cid : Nat)
    (tags : List Tag) (s : σ) :
    (removeLoopA o cid tags s).2.1 =
      (tags.filter (fun t => removeSetA.contains (jsLower t.name))).map
        (fun t => Call.removeTag cid t.id) := by
  induction tags generalizing s with
  | nil => simp [removeLoopA]
  | cons t rest ih =>
    by_cases h : jsLower t.name ∈ removeSetA
    · simp [removeLoopA, h, ih]
    · simp [removeLoopA, h, ih]

/-- The assignment loop issues exactly one `{tag_id}` POST per resolved id,
in order, and nothing else. -/
theorem assignLoopA_calls {σ : Type} (o : Oracle σ) (cid : Nat)
    (tids : List Nat) (s : σ) :
    (assignLoopA o cid tids s).2.2.1 =
      tids.map (fun tid => Call.assignTag cid (.tag_id tid)) := by
  induction tids generalizing s with
  | nil => simp [assignLoopA]
  | cons tid rest ih => simp [assignLoopA, ih]

/-- Is this call a DELETE of a contact's tag? -/
def isRemoveTagCall : Call → Bool
  | .removeTag _ _ => true
  | _ => false

/-- **C1.** For every request whose email matches an existing CRM contact
(the find-by-email call returns at least one item), the first `contact.js`
handler issues no `POST /contacts` creation call, and the id of the found
contact is the contact id of every subsequent contact-scoped call and of
the success response. -/
theorem c1_existing_contact_reused
    {σ : Type} (o : Oracle σ) (key : String) (req : Request) (s0 : σ)
    (c : Contact) (cs : List Contact)
    (hm : req.method = "POST")
    (he : ¬ normEmailA req.email = "")
    (hfind : (o.findContact (normEmailA req.email) 10 s0).1 = (true, c :: cs))
    (hid : ¬ c.id = 0) :
    (∀ call ∈ (handlerA o (some key) req s0).2.1, isCreateContactCall call = false) ∧
    (∀ call ∈ (handlerA o (some key) req s0).2.1, ∀ n, callCid call = some n → n = c.id) ∧
    ((handlerA o (some key) req s0).1.success = true →
      (handlerA o (some key) req s0).1.contactId = some c.id) := by
  simp [handlerA, contactSyncTailA, hm, he, hfind, hid]
  by_cases hp : (o.patchContact c.id none
      (fieldsA (normFirstA req.first_name) (normScoreA req.score))
      (o.findContact (normEmailA req.email) 10 s0).2).1.1 = false
  · simp [hp, errResp, isCreateContactCall, callCid]
  · simp [hp]
    split
    · refine ⟨?_, ?_, ?_⟩ <;>
        simp [errResp, isCreateContactCall, callCid]
    · split
      · refine ⟨?_, ?_, ?_⟩ <;>
          simp [errResp, isCreateContactCall, callCid, removeLoopA_calls,
            assignLoopA_calls] <;>
          (try rintro a (⟨t, -, rfl⟩ | ⟨tid, -, rfl⟩ | rfl)) <;>
          simp [isCreateContactCall, callCid]
      · refine ⟨?_, ?_, ?_⟩ <;>
          simp [errResp, isCreateContactCall, callCid, removeLoopA_calls,
            assignLoopA_calls] <;>
          (try rintro a (⟨t, -, rfl⟩ | ⟨tid, -, rfl⟩ | rfl)) <;>
          simp [isCreateContactCall, callCid]

/-- Witness for C1 at a concrete environment: an existing contact with
id 7 is found, no creation call is issued, and the response reuses id 7. -/
theorem c1_witness :
    (∀ call ∈ (handlerA
        (stubO [⟨7, "a@b.c", []⟩] [] (some ⟨7, "a@b.c", []⟩) none none true true true)
        (some "k")
        { method := "POST", email := some "a@b.c", first_name := none,
          score := none, tagNames := .absent } ()).2.1,
      isCreateContactCall call = false) ∧
    (∀ call ∈ (handlerA
        (stubO [⟨7, "a@b.c", []⟩] [] (some ⟨7, "a@b.c", []⟩) none none true true true)
        (some "k")
        { method := "POST", email := some "a@b.c", first_name := none,
          score := none, tagNames := .absent } ()).2.1,
      ∀ n, callCid call = some n → n = (Contact.mk 7 "a@b.c" []).id) ∧
    ((handlerA
        (stubO [⟨7, "a@b.c", []⟩] [] (some ⟨7, "a@b.c", []⟩) none none true true true)
        (some "k")
        { method := "POST", email := some "a@b.c", first_name := none,
          score := none, tagNames := .absent } ()).1.success = true →
      (handlerA
        (stubO [⟨7, "a@b.c", []⟩] [] (some ⟨7, "a@b.c", []⟩) none none true true true)
        (some "k")
        { method := "POST", email := some "a@b.c", first_name := none,
          score := none, tagNames := .absent } ()).1.contactId =
        some (Contact.mk 7 "a@b.c" []).id) :=
  c1_existing_contact_reused
    (stubO [⟨7, "a@b.c", []⟩] [] (some ⟨7, "a@b.c", []⟩) none none true true true)
    "k"
    { method := "POST", email := some "a@b.c", first_name := none,
      score := none, tagNames := .absent } ()
    (Contact.mk 7 "a@b.c" []) [] rfl (by decide) rfl (by decide)

/-- **C10.** In the first `contact.js` variant, a DELETE is issued for
exactly the assessment-named tags on the contact, and each of those tag
ids is appended to `removedTagIds` no matter what the DELETE returned:
the oracle's `removeTag` responses are unconstrained here, so the result
holds in particular when every DELETE fails. -/
theorem c10_removed_ids_ignore_delete_status
    {σ : Type} (o : Oracle σ) (key : String) (req : Request) (s0 : σ)
    (c : Contact) (cs : List Contact) (ctc : Contact)
    (hm : req.method = "POST")
    (he : ¬ normEmailA req.email = "")
    (hfind : (o.findContact (normEmailA req.email) 10 s0).1 = (true, c :: cs))
    (hid : ¬ c.id = 0)
    (hpatch : ∀ fn fl s, (o.patchContact c.id fn fl s).1.1 = true)
    (hget : ∀ s, (o.getContact c.id s).1.2 = some ctc) :
    (handlerA o (some key) req s0).1.removedTagIds =
      (ctc.tags.filter (fun t => removeSetA.contains (jsLower t.name))).map (·.id) ∧
    (∀ tid, Call.removeTag c.id tid ∈ (handlerA o (some key) req s0).2.1 ↔
      tid ∈ (ctc.tags.filter (fun t => removeSetA.contains (jsLower t.name))).map (·.id)) := by
  simp [handlerA, contactSyncTailA, hm, he, hfind, hid, hpatch, hget,
    removeLoopA_removed, removeLoopA_calls, assignLoopA_calls]

/-- Witness for C10: every DELETE fails (`dOk := false`), yet tag 3
(`sadone`, an assessment tag of the fetched contact) is still reported in
`removedTagIds`, and it is exactly the id a DELETE was issued for. -/
theorem c10_witness :
    ((handlerA
        (stubO [⟨7, "a@b.c", []⟩] []
          (some ⟨7, "a@b.c", [⟨3, "sadone"⟩, ⟨9, "vip"⟩]⟩) none none true true false)
        (some "k")
        { method := "POST", email := some "a@b.c", first_name := none,
          score := none, tagNames := .absent } ()).1.removedTagIds = [3] ∧
     (∀ tid, Call.removeTag 7 tid ∈ (handlerA
        (stubO [⟨7, "a@b.c", []⟩] []
          (some ⟨7, "a@b.c", [⟨3, "sadone"⟩, ⟨9, "vip"⟩]⟩) none none true true false)
        (some "k")
        { method := "POST", email := some "a@b.c", first_name := none,
          score := none, tagNames := .absent } ()).2.1 ↔ tid ∈ [3])) ∧
    ((stubO [⟨7, "a@b.c", []⟩] []
        (some ⟨7, "a@b.c", [⟨3, "sadone"⟩, ⟨9, "vip"⟩]⟩) none none true true
        false).removeTag 7 3 ()).1.1 = false := by
  refine ⟨?_, rfl⟩
  have h := c10_removed_ids_ignore_delete_status
    (stubO [⟨7, "a@b.c", []⟩] []
      (some ⟨7, "a@b.c", [⟨3, "sadone"⟩, ⟨9, "vip"⟩]⟩) none none true true false)
    "k"
    { method := "POST", email := some "a@b.c", first_name := none,
      score := none, tagNames := .absent } ()
    (Contact.mk 7 "a@b.c" []) [] (Contact.mk 7 "a@b.c" [⟨3, "sadone"⟩, ⟨9, "vip"⟩])
    rfl (by decide) rfl (by decide) (fun _ _ _ => rfl) (fun _ => rfl)
  exact ⟨h.1, h.2⟩

/-- **C2 (amended).** In both `contact.js` handlers a request whose body
email is missing, empty, or whitespace-only yields HTTP 400 and no CRM
call.  (`part_001` validates the trimmed email likewise; `part_000` and
`part_003` test the raw untrimmed value, so only missing/empty emails are
rejected there and a whitespace-only email passes; `part_002` has no email
check at all — see the counterexample.) -/
theorem c2_missing_email_400
    {σ : Type} (o : Oracle σ) (key : String) (req : Request) (s0 : σ)
    (hm : req.method = "POST")
    (he : normEmailA req.email = "") :
    ((handlerA o (some key) req s0).1.status = 400 ∧
     (handlerA o (some key) req s0).2.1 = []) ∧
    ((handlerB o (some key) req s0).1.status = 400 ∧
     (handlerB o (some key) req s0).2.1 = []) := by
  have he' : normEmailB req.email = "" := he
  refine ⟨?_, ?_⟩ <;> simp [handlerA, handlerB, hm, he, he', errResp]

/-- Witness for C2's amended theorem: a whitespace-only email gets a 400
and an empty trace from both `contact.js` handlers. -/
theorem c2_witness :
    ((handlerA (stubO [] [] none none none true true true) (some "k")
      { method := "POST", email := some "   ", first_name := none,
        score := none, tagNames := .absent } ()).1.status = 400 ∧
     (handlerA (stubO [] [] none none none true true true) (some "k")
      { method := "POST", email := some "   ", first_name := none,
        score := none, tagNames := .absent } ()).2.1 = []) ∧
    ((handlerB (stubO [] [] none none none true true true) (some "k")
      { method := "POST", email := some "   ", first_name := none,
        score := none, tagNames := .absent } ()).1.status = 400 ∧
     (handlerB (stubO [] [] none none none true true true) (some "k")
      { method := "POST", email := some "   ", first_name := none,
        score := none, tagNames := .absent } ()).2.1 = []) :=
  c2_missing_email_400 (stubO [] [] none none none true true true) "k"
    { method := "POST", email := some "   ", first_name := none,
      score := none, tagNames := .absent } () rfl (by decide)

/-- **C2 (counterexample).** The `part_002` handler performs no email
validation: on a body with no email it still issues CRM calls (tag list,
contact lookup against the literal string `"undefined"`, contact creation)
and answers 200, not 400. -/
theorem c2_counterexample_part002 :
    (handlerP2 (stubO [] [] none (some 42) none true true true) (some "k")
      { method := "POST", email := none, first_name := none,
        score := none, tagNames := .absent } ()).1.status = 200 ∧
    ¬ (handlerP2 (stubO [] [] none (some 42) none true true true) (some "k")
      { method := "POST", email := none, first_name := none,
        score := none, tagNames := .absent } ()).2.1 = [] ∧
    (handlerP2 (stubO [] [] none (some 42) none true true true) (some "k")
      { method := "POST", email := none, first_name := none,
        score := none, tagNames := .absent } ()).2.1 =
      [Call.listTags (some 100), Call.findContact "undefined" 10,
       Call.createContact none none [("score", "")] []] := by
  refine ⟨rfl, by decide, rfl⟩

/-- **C6 (amended).** In the variants that check the API key — both
`contact.js` handlers are proved here — a POST issued while the key is
absent from the configuration yields HTTP 500 and no CRM call.
(`part_002` never checks the key; see the counterexample.) -/
theorem c6_missing_key_500
    {σ : Type} (o : Oracle σ) (req : Request) (s0 : σ)
    (hm : req.method = "POST") :
    ((handlerA o none req s0).1.status = 500 ∧
     (handlerA o none req s0).2.1 = []) ∧
    ((handlerB o none req s0).1.status = 500 ∧
     (handlerB o none req s0).2.1 = []) := by
  refine ⟨?_, ?_⟩ <;> simp [handlerA, handlerB, hm, errResp]

/-- Witness for C6's amended theorem. -/
theorem c6_witness :
    ((handlerA (stubO [] [] none none none true true true) none
      { method := "POST", email := some "a@b.c", first_name := none,
        score := none, tagNames := .absent } ()).1.status = 500 ∧
     (handlerA (stubO [] [] none none none true true true) none
      { method := "POST", email := some "a@b.c", first_name := none,
        score := none, tagNames := .absent } ()).2.1 = []) ∧
    ((handlerB (stubO [] [] none none none true true true) none
      { method := "POST", email := some "a@b.c", first_name := none,
        score := none, tagNames := .absent } ()).1.status = 500 ∧
     (handlerB (stubO [] [] none none none true true true) none
      { method := "POST", email := some "a@b.c", first_name := none,
        score := none, tagNames := .absent } ()).2.1 = []) :=
  c6_missing_key_500 (stubO [] [] none none none true true true)
    { method := "POST", email := some "a@b.c", first_name := none,
      score := none, tagNames := .absent } () rfl

/-- **C6 (counterexample).** `part_002` reads the key only to build the
`Authorization` header: with no key configured it still issues CRM calls
and answers 200, not 500. -/
theorem c6_counterexample_part002 :
    (handlerP2 (stubO [] [] none (some 42) none true true true) none
      { method := "POST", email := some "a@b.c", first_name := none,
        score := none, tagNames := .absent } ()).1.status = 200 ∧
    ¬ (handlerP2 (stubO [] [] none (some 42) none true true true) none
      { method := "POST", email := some "a@b.c", first_name := none,
        score := none, tagNames := .absent } ()).2.1 = [] := by
  refine ⟨rfl, by decide⟩

/-- **C8 (amended).** In the first `contact.js` variant (and likewise the
other per-tag variants), after tag resolution the handler issues, for every
id in the resolved list, exactly one `POST /contacts/{id}/tags` call
carrying that single id (`{tag_id: tid}`), counted with multiplicity.
(`part_002` instead sends one bulk call / embeds the ids in the creation
body; see the counterexample.) -/
theorem c8_per_tag_assignment
    {σ : Type} (o : Oracle σ) (key : String) (req : Request) (s0 : σ)
    (c : Contact) (cs : List Contact) (ctc : Contact) (T : List Tag)
    (hm : req.method = "POST")
    (he : ¬ normEmailA req.email = "")
    (hfind : (o.findContact (normEmailA req.email) 10 s0).1 = (true, c :: cs))
    (hid : ¬ c.id = 0)
    (hpatch : ∀ fn fl s, (o.patchContact c.id fn fl s).1.1 = true)
    (hget : ∀ s, (o.getContact c.id s).1.2 = some ctc)
    (hTags : ∀ s, (o.listTags (some 100) s).1 = (true, T)) :
    (handlerA o (some key) req s0).1.resolvedTagIds =
      (resolveA T (normTagsA req.tagNames)).1 ∧
    (∀ tid, ((handlerA o (some key) req s0).2.1.count
        (Call.assignTag c.id (.tag_id tid))) =
      (resolveA T (normTagsA req.tagNames)).1.count tid) := by
  simp [handlerA, contactSyncTailA, hm, he, hfind, hid, hpatch, hget, hTags,
    assignLoopA_calls, removeLoopA_calls]
  intro tid
  have h1 : (List.count (Call.assignTag c.id (AssignBody.tag_id tid))
      (List.map (fun t => Call.removeTag c.id t.id)
        (List.filter (fun t => decide (jsLower t.name ∈ removeSetA)) ctc.tags))) = 0 :=
    List.count_eq_zero.mpr (by simp)
  rw [h1, Nat.zero_add]
  exact List.count_map_of_injective _
    (fun x => Call.assignTag c.id (AssignBody.tag_id x))
    (fun a b h => by simpa using h) tid

/-- Witness for C8's amended theorem: resolved ids `[3, 5]` each get
exactly one single-id POST. -/
theorem c8_witness :
    (handlerA (stubO [⟨7, "a@b.c", []⟩] [⟨3, "sadone"⟩, ⟨5, "x"⟩]
        (some ⟨7, "a@b.c", []⟩) none none true true true) (some "k")
      { method := "POST", email := some "a@b.c", first_name := none,
        score := none, tagNames := .arr ["x"] } ()).1.resolvedTagIds =
      (resolveA [⟨3, "sadone"⟩, ⟨5, "x"⟩]
        (normTagsA (.arr ["x"]))).1 ∧
    (∀ tid, ((handlerA (stubO [⟨7, "a@b.c", []⟩] [⟨3, "sadone"⟩, ⟨5, "x"⟩]
        (some ⟨7, "a@b.c", []⟩) none none true true true) (some "k")
      { method := "POST", email := some "a@b.c", first_name := none,
        score := none, tagNames := .arr ["x"] } ()).2.1.count
        (Call.assignTag (Contact.mk 7 "a@b.c" []).id (.tag_id tid))) =
      (resolveA [⟨3, "sadone"⟩, ⟨5, "x"⟩]
        (normTagsA (.arr ["x"]))).1.count tid) :=
  c8_per_tag_assignment
    (stubO [⟨7, "a@b.c", []⟩] [⟨3, "sadone"⟩, ⟨5, "x"⟩]
      (some ⟨7, "a@b.c", []⟩) none none true true true) "k"
    { method := "POST", email := some "a@b.c", first_name := none,
      score := none, tagNames := .arr ["x"] } ()
    (Contact.mk 7 "a@b.c" []) [] (Contact.mk 7 "a@b.c" [])
    [⟨3, "sadone"⟩, ⟨5, "x"⟩]
    rfl (by decide) rfl (by decide) (fun _ _ _ => rfl) (fun _ => rfl)
    (fun _ => rfl)

/-- **C8 (counterexample).** `part_002` resolves two tag ids `[1, 2]` for
an existing contact, but issues a single bulk `POST /contacts/7/tags` with
`{tagIds: [1, 2]}` — no per-tag single-id call is issued at all. -/
theorem c8_counterexample_part002 :
    (handlerP2 (stubO [⟨7, "a@b.c", []⟩] [⟨1, "a"⟩, ⟨2, "b"⟩] none none none
        true true true) (some "k")
      { method := "POST", email := some "a@b.c", first_name := none,
        score := none, tagNames := .arr ["a", "b"] } ()).1.tagIds = [1, 2] ∧
    (handlerP2 (stubO [⟨7, "a@b.c", []⟩] [⟨1, "a"⟩, ⟨2, "b"⟩] none none none
        true true true) (some "k")
      { method := "POST", email := some "a@b.c", first_name := none,
        score := none, tagNames := .arr ["a", "b"] } ()).2.1 =
      [Call.listTags (some 100), Call.findContact "a@b.c" 10,
       Call.patchContact 7 none [("score", "")],
       Call.assignTag 7 (.tagIds [1, 2])] := by
  refine ⟨rfl, rfl⟩

/- ### Tail and dedupe lemmas used by the tag-creation claims -/

/-- The post-upsert tail of the first variant never issues a `POST /tags`
(provided, as is the case at its call sites, the prefix trace has none). -/
theorem contactSyncTailA_no_createTag {σ : Type} (o : Oracle σ)
    (tagNames : List String) (cid : Nat) (tr2 : List Call) (s2 : σ)
    (h2 : ∀ call ∈ tr2, isCreateTagCall call = false) :
    ∀ call ∈ (contactSyncTailA o tagNames cid tr2 s2).2.1,
      isCreateTagCall call = false := by
  intro call hc
  simp only [contactSyncTailA] at hc
  split at hc
  · simp at hc
    rcases hc with hc | rfl | rfl
    · exact h2 call hc
    · rfl
    · rfl
  · split at hc
    · simp [removeLoopA_calls, assignLoopA_calls] at hc
      rcases hc with hc | rfl | rfl | ⟨t, -, rfl⟩ | ⟨tid, -, rfl⟩ | rfl
      all_goals first | exact h2 call hc | rfl
    · simp [removeLoopA_calls, assignLoopA_calls] at hc
      rcases hc with hc | rfl | rfl | ⟨t, -, rfl⟩ | ⟨tid, -, rfl⟩ | rfl
      all_goals first | exact h2 call hc | rfl

/-- The first `contact.js` variant issues no `POST /tags` on any path:
its tag-resolution loop (lines 155–173) only consults the fetched map and
records `"Tag not found"` errors. -/
theorem handlerA_no_createTag {σ : Type} (o : Oracle σ) (key : Option String)
    (req : Request) (s0 : σ) :
    ∀ call ∈ (handlerA o key req s0).2.1, isCreateTagCall call = false := by
  intro call hc
  simp only [handlerA] at hc
  repeat' split at hc
  all_goals
    first
    | (exact contactSyncTailA_no_createTag _ _ _ _ _
        (by intro c hcc; simp at hcc; rcases hcc with rfl | rfl <;> rfl) call hc)
    | (simp [errResp] at hc; try (rcases hc with rfl | rfl) <;> rfl)

/-- The second variant's dedupe keeps a list whose lowercased names are
distinct and disjoint from the seed `seen` set. -/
theorem dedupeCIAux_lower_nodup :
    ∀ (l seen : List String),
    ((dedupeCIAux seen l).map jsLower).Nodup ∧
    ∀ k ∈ (dedupeCIAux seen l).map jsLower, k ∉ seen := by
  intro l
  induction l with
  | nil => intro seen; simp [dedupeCIAux]
  | cons t rest ih =>
    intro seen
    by_cases h : jsLower t ∈ seen
    · simpa [dedupeCIAux, h] using ih seen
    · have hrec := ih (jsLower t :: seen)
      simp only [dedupeCIAux]
      rw [if_neg (by simpa using h)]
      constructor
      · simp only [List.map_cons, List.nodup_cons]
        exact ⟨fun hmem => (hrec.2 _ hmem) (List.mem_cons_self _ _), hrec.1⟩
      · intro k hk
        simp only [List.map_cons, List.mem_cons] at hk
        rcases hk with rfl | hk
        · exact h
        · exact fun hks => (hrec.2 _ hk) (List.mem_cons_of_mem _ hks)

/-- The second variant's normalized tag list has no case-insensitive
duplicates. -/
theorem normTagsB_lower_nodup (ti : TagsInput) :
    ((normTagsB ti).map jsLower).Nodup :=
  (dedupeCIAux_lower_nodup (ensureSadoneB (cleanTagsB ti)) []).1

/-- In the second variant's resolution loop over case-insensitively distinct
names, the number of `POST /tags` calls for a name is one exactly when the
name is processed and its lowercased form misses the map, else zero. -/
theorem resolveLoopB_count {σ : Type} (o : Oracle σ) (names : List String)
    (n : String) :
    ∀ (m : List (String × Nat)) (s : σ),
    ((names.map jsLower).Nodup) →
    ((resolveLoopB o names m s).2.2.1.count (Call.createTag n)) =
      (if n ∈ names ∧ m.lookup (jsLower n) = none then 1 else 0) := by
  induction names with
  | nil => intro m s _; simp [resolveLoopB]
  | cons tname rest ih =>
    intro m s hnd
    rw [List.map_cons, List.nodup_cons] at hnd
    obtain ⟨hnot, hnd2⟩ := hnd
    have hmem : n = tname → n ∉ rest := by
      rintro rfl hmm
      exact hnot (List.mem_map_of_mem jsLower hmm)
    simp only [resolveLoopB]
    rcases hlk : m.lookup (jsLower tname) with _ | id
    · by_cases hok : ((o.createTag tname s).1.1 = true ∧
          ¬ (o.createTag tname s).1.2.getD 0 = 0)
      · rw [if_pos hok]
        simp only [List.count_cons, ih _ _ hnd2]
        by_cases hn : n = tname
        · subst hn
          simp [hmem rfl, hlk]
        · have hn2 : ¬ tname = n := fun hx => hn hx.symm
          by_cases hne : jsLower n = jsLower tname
          · have hnr : n ∉ rest := by
              intro hr
              rw [← hne] at hnot
              exact hnot (List.mem_map_of_mem jsLower hr)
            simp [hn, hn2, hnr]
          · have hbeq : (jsLower n == jsLower tname) = false :=
              beq_eq_false_iff_ne.mpr hne
            rw [List.lookup]
            rw [hbeq]
            have hmc : (n ∈ tname :: rest) ↔ (n ∈ rest) := by simp [hn]
            simp [hn2, beq_iff_eq]
            exact if_congr (and_congr_left' hmc.symm) rfl rfl
      · rw [if_neg hok]
        simp only [List.count_cons, ih _ _ hnd2]
        by_cases hn : n = tname
        · subst hn
          simp [hmem rfl, hlk]
        · have hn2 : ¬ tname = n := fun hx => hn hx.symm
          have hmc : (n ∈ tname :: rest) ↔ (n ∈ rest) := by simp [hn]
          simp [hn2, beq_iff_eq]
          exact if_congr (and_congr_left' hmc.symm) rfl rfl
    · have hrec := ih m s hnd2
      by_cases hn : n = tname
      · subst hn
        simp [hrec, hlk]
      · have hmc : (n ∈ tname :: rest) ↔ (n ∈ rest) := by simp [hn]
        simp only [hrec]
        exact if_congr (and_congr_left' hmc.symm) rfl rfl

/-- Hypothesis-first restatement of `resolveLoopB_count` for rewriting. -/
theorem resolveLoopB_count2 {σ : Type} (o : Oracle σ) (names : List String)
    (n : String) (hnd : (names.map jsLower).Nodup) :
    ∀ (m : List (String × Nat)) (s : σ),
    ((resolveLoopB o names m s).2.2.1.count (Call.createTag n)) =
      (if n ∈ names ∧ m.lookup (jsLower n) = none then 1 else 0) :=
  fun m s => resolveLoopB_count o names n m s hnd

/-- The second variant's removal loop DELETEs exactly the matching tags
with truthy ids, and nothing else. -/
theorem removeLoopB_calls {σ : Type} (o : Oracle σ) (cid : Nat)
    (tags : List Tag) (s : σ) :
    (removeLoopB o cid tags s).2.1 =
      (tags.filter (fun t => removePredB t.name ∧ ¬ t.id = 0)).map
        (fun t => Call.removeTag cid t.id) := by
  induction tags generalizing s with
  | nil => simp [removeLoopB]
  | cons t rest ih =>
    by_cases hp : removePredB t.name = true
    · by_cases hz : t.id = 0
      · simp [removeLoopB, hp, hz, ih]
      · simp [removeLoopB, hp, hz, ih]
    · simp [removeLoopB, hp, ih]

/-- The second variant's assignment loop issues one `{tagId}` POST per
resolved id, in order, and nothing else. -/
theorem assignLoopB_calls {σ : Type} (o : Oracle σ) (cid : Nat)
    (tids : List Nat) (s : σ) :
    (assignLoopB o cid tids s).2.2.1 =
      tids.map (fun tid => Call.assignTag cid (.tagId tid)) := by
  induction tids generalizing s with
  | nil => simp [assignLoopB]
  | cons tid rest ih => simp [assignLoopB, ih]

/-- On a singleton find result the second variant's match picks that
contact whether or not its email matches exactly. -/
theorem contactIdOfItemsB_singleton (email : String) (c : Contact) :
    contactIdOfItemsB email [c] = if c.id ≠ 0 then some c.id else none := by
  by_cases h : jsLower c.email = email <;> simp [contactIdOfItemsB, h]

/-- No removal-loop DELETE is a tag-creation call. -/
theorem count_createTag_map_removeTag (n : String) (cid : Nat) (l : List Tag) :
    (l.map (fun t => Call.removeTag cid t.id)).count (Call.createTag n) = 0 :=
  List.count_eq_zero.mpr (by simp)

/-- No assignment-loop POST is a tag-creation call. -/
theorem count_createTag_map_assignTagId (n : String) (cid : Nat) (l : List Nat) :
    (l.map (fun tid => Call.assignTag cid (.tagId tid))).count (Call.createTag n) = 0 :=
  List.count_eq_zero.mpr (by simp)

/-- **C3 (amended).** Tag creation differs by variant: the first
`contact.js` handler issues no `POST /tags` at all (missing names become
`"Tag not found"` errors), while the second issues exactly one `POST /tags`
per requested (normalized, case-insensitively deduped) name whose
lowercased form is missing from the fetched map, and zero for names
already present. -/
theorem c3_tag_creation_by_variant
    {σ σ2 : Type} (oA : Oracle σ) (keyA : Option String) (reqA : Request) (sA : σ)
    (oB : Oracle σ2) (keyB : String) (reqB : Request) (sB : σ2)
    (c : Contact) (T : List Tag)
    (hm : reqB.method = "POST") (he : ¬ normEmailB reqB.email = "")
    (hfind : (oB.findContact (normEmailB reqB.email) 10 sB).1 = (true, [c]))
    (hid : ¬ c.id = 0)
    (hpatch : ∀ fn fl s, (oB.patchContact c.id fn fl s).1.1 = true)
    (hTags : ∀ s, (oB.listTags (some 500) s).1 = (true, T)) :
    (∀ call ∈ (handlerA oA keyA reqA sA).2.1, isCreateTagCall call = false) ∧
    (∀ n ∈ normTagsB reqB.tagNames,
      (handlerB oB (some keyB) reqB sB).2.1.count (Call.createTag n) =
        if (buildTagMapB T).lookup (jsLower n) = none then 1 else 0) := by
  refine ⟨handlerA_no_createTag oA keyA reqA sA, ?_⟩
  intro n hn
  have hnd := normTagsB_lower_nodup reqB.tagNames
  simp [handlerB, contactSyncTailB, hm, he, hfind, hid, hpatch, hTags,
    contactIdOfItemsB_singleton, removeLoopB_calls, assignLoopB_calls,
    resolveLoopB_count2 oB (normTagsB reqB.tagNames) n hnd, hn,
    count_createTag_map_removeTag, count_createTag_map_assignTagId]
  exact if_congr (and_iff_right hn) rfl rfl

/-- Witness for C3's amended theorem: `tagNames = ["new1"]` normalizes to
`["sadone", "new1"]`; with remote tags `[{3, "sadone"}]` the second
handler creates exactly one tag per missing name and none for `sadone`,
and the first handler (run on the same environment) creates none. -/
theorem c3_witness :
    (∀ call ∈ (handlerA (stubO [⟨7, "a@b.c", []⟩] [⟨3, "sadone"⟩]
        (some ⟨7, "a@b.c", []⟩) none (some 9) true true true) (some "k")
      { method := "POST", email := some "a@b.c", first_name := none,
        score := none, tagNames := .arr ["new1"] } ()).2.1,
      isCreateTagCall call = false) ∧
    (∀ n ∈ normTagsB (.arr ["new1"]),
      (handlerB (stubO [⟨7, "a@b.c", []⟩] [⟨3, "sadone"⟩]
        (some ⟨7, "a@b.c", []⟩) none (some 9) true true true) (some "k")
      { method := "POST", email := some "a@b.c", first_name := none,
        score := none, tagNames := .arr ["new1"] } ()).2.1.count
          (Call.createTag n) =
        if (buildTagMapB [⟨3, "sadone"⟩]).lookup (jsLower n) = none
        then 1 else 0) :=
  c3_tag_creation_by_variant
    (stubO [⟨7, "a@b.c", []⟩] [⟨3, "sadone"⟩]
      (some ⟨7, "a@b.c", []⟩) none (some 9) true true true) (some "k")
    { method := "POST", email := some "a@b.c", first_name := none,
      score := none, tagNames := .arr ["new1"] } ()
    (stubO [⟨7, "a@b.c", []⟩] [⟨3, "sadone"⟩]
      (some ⟨7, "a@b.c", []⟩) none (some 9) true true true) "k"
    { method := "POST", email := some "a@b.c", first_name := none,
      score := none, tagNames := .arr ["new1"] } ()
    (Contact.mk 7 "a@b.c" []) [⟨3, "sadone"⟩]
    rfl (by decide) rfl (by decide) (fun _ _ _ => rfl) (fun _ => rfl)

/-- **C3 (counterexample).** As stated, the claim fails on the first
`contact.js` variant: with the tag `"brandnew"` requested and absent from
the fetched (empty) tag list, the handler issues zero `POST /tags` calls
(the claim demands exactly one) and records a `"Tag not found"` error
instead, still answering 200. -/
theorem c3_counterexample_variantA :
    (handlerA (stubO [⟨7, "a@b.c", []⟩] [] (some ⟨7, "a@b.c", []⟩)
        none none true true true) (some "k")
      { method := "POST", email := some "a@b.c", first_name := none,
        score := none, tagNames := .arr ["brandnew"] } ()).2.1.count
        (Call.createTag "brandnew") = 0 ∧
    (handlerA (stubO [⟨7, "a@b.c", []⟩] [] (some ⟨7, "a@b.c", []⟩)
        none none true true true) (some "k")
      { method := "POST", email := some "a@b.c", first_name := none,
        score := none, tagNames := .arr ["brandnew"] } ()).1.tagErrors =
      [("sadone", "Tag not found"), ("brandnew", "Tag not found")] ∧
    (handlerA (stubO [⟨7, "a@b.c", []⟩] [] (some ⟨7, "a@b.c", []⟩)
        none none true true true) (some "k")
      { method := "POST", email := some "a@b.c", first_name := none,
        score := none, tagNames := .arr ["brandnew"] } ()).1.status = 200 := by
  refine ⟨rfl, rfl, rfl⟩

/-- Every call issued by the second variant's resolution loop is a
`POST /tags`. -/
theorem resolveLoopB_calls_shape {σ : Type} (o : Oracle σ) :
    ∀ (names : List String) (m : List (String × Nat)) (s : σ),
    ∀ call ∈ (resolveLoopB o names m s).2.2.1, isCreateTagCall call = true := by
  intro names
  induction names with
  | nil => intro m s call hc; simp [resolveLoopB] at hc
  | cons tname rest ih =>
    intro m s call hc
    simp only [resolveLoopB] at hc
    rcases hlk : m.lookup (jsLower tname) with _ | id <;> rw [hlk] at hc
    · by_cases hok : ((o.createTag tname s).1.1 = true ∧
          ¬ (o.createTag tname s).1.2.getD 0 = 0)
      · rw [if_pos hok] at hc
        simp only [List.mem_cons] at hc
        rcases hc with rfl | hc
        · rfl
        · exact ih _ _ call hc
      · rw [if_neg hok] at hc
        simp only [List.mem_cons] at hc
        rcases hc with rfl | hc
        · rfl
        · exact ih _ _ call hc
    · exact ih _ _ call hc

/-- **C4 (amended).** In the tag-removing variants, a DELETE on a contact's
tag targets only tags actually on the fetched contact whose name matches
the variant's removal predicate: in the first `contact.js` variant the
fixed assessment set `{sadone, saresult1, saresult2, saresult3}`
(case-insensitively); in the second variant that set **or any lowercased
name starting with `"saresult"`** (and only truthy ids).  Every other tag
on the contact receives no DELETE. -/
theorem c4_assessment_removal_scope
    {σ σ2 : Type} (oA : Oracle σ) (keyA : String) (reqA : Request) (sA : σ)
    (oB : Oracle σ2) (keyB : String) (reqB : Request) (sB : σ2)
    (cA : Contact) (csA : List Contact) (ctcA : Contact)
    (cB : Contact) (ctcB : Contact)
    (hmA : reqA.method = "POST") (heA : ¬ normEmailA reqA.email = "")
    (hfindA : (oA.findContact (normEmailA reqA.email) 10 sA).1 = (true, cA :: csA))
    (hidA : ¬ cA.id = 0)
    (hpatchA : ∀ fn fl s, (oA.patchContact cA.id fn fl s).1.1 = true)
    (hgetA : ∀ s, (oA.getContact cA.id s).1.2 = some ctcA)
    (hmB : reqB.method = "POST") (heB : ¬ normEmailB reqB.email = "")
    (hfindB : (oB.findContact (normEmailB reqB.email) 10 sB).1 = (true, [cB]))
    (hidB : ¬ cB.id = 0)
    (hpatchB : ∀ fn fl s, (oB.patchContact cB.id fn fl s).1.1 = true)
    (hgetB : ∀ s, (oB.getContact cB.id s).1 = (true, some ctcB)) :
    (∀ tid, Call.removeTag cA.id tid ∈ (handlerA oA (some keyA) reqA sA).2.1 →
      tid ∈ (ctcA.tags.filter
        (fun t => removeSetA.contains (jsLower t.name))).map (·.id)) ∧
    (∀ tid, Call.removeTag cB.id tid ∈ (handlerB oB (some keyB) reqB sB).2.1 →
      tid ∈ (ctcB.tags.filter
        (fun t => removePredB t.name ∧ ¬ t.id = 0)).map (·.id)) := by
  constructor
  · intro tid
    have hiff : (Call.removeTag cA.id tid ∈ (handlerA oA (some keyA) reqA sA).2.1) ↔
        tid ∈ (ctcA.tags.filter
          (fun t => removeSetA.contains (jsLower t.name))).map (·.id) := by
      simp [handlerA, contactSyncTailA, hmA, heA, hfindA, hidA, hpatchA, hgetA,
        removeLoopA_removed, removeLoopA_calls, assignLoopA_calls]
    exact hiff.mp
  · intro tid h
    simp [handlerB, contactSyncTailB, hmB, heB, hfindB, hidB, hpatchB, hgetB,
      contactIdOfItemsB_singleton, removeLoopB_calls, assignLoopB_calls] at h
    rcases h with h | ⟨a, ⟨ha1, ha2, ha3⟩, rfl⟩
    · exact absurd (resolveLoopB_calls_shape oB _ _ _ _ h)
        (by simp [isCreateTagCall])
    · simp only [List.mem_map]
      refine ⟨a, ?_, rfl⟩
      simp [List.mem_filter, ha1, ha2, ha3]

/-- Witness for C4's amended theorem: the first variant's DELETEs on a
contact tagged `sadone`/`vip` stay within the assessment set; the second
variant's DELETEs on a contact tagged `SARESULT2`/`vip` stay within the
amended predicate. -/
theorem c4_witness :
    (∀ tid, Call.removeTag (Contact.mk 7 "a@b.c" []).id tid ∈
        (handlerA (stubO [⟨7, "a@b.c", []⟩] []
          (some ⟨7, "a@b.c", [⟨3, "sadone"⟩, ⟨9, "vip"⟩]⟩) none none true true true)
          (some "k")
          { method := "POST", email := some "a@b.c", first_name := none,
            score := none, tagNames := .absent } ()).2.1 →
      tid ∈ (((Contact.mk 7 "a@b.c" [⟨3, "sadone"⟩, ⟨9, "vip"⟩]).tags.filter
        (fun t => removeSetA.contains (jsLower t.name))).map (·.id))) ∧
    (∀ tid, Call.removeTag (Contact.mk 7 "a@b.c" []).id tid ∈
        (handlerB (stubO [⟨7, "a@b.c", []⟩] []
          (some ⟨7, "a@b.c", [⟨4, "SARESULT2"⟩, ⟨9, "vip"⟩]⟩) none (some 5) true true true)
          (some "k")
          { method := "POST", email := some "a@b.c", first_name := none,
            score := none, tagNames := .absent } ()).2.1 →
      tid ∈ (((Contact.mk 7 "a@b.c" [⟨4, "SARESULT2"⟩, ⟨9, "vip"⟩]).tags.filter
        (fun t => removePredB t.name ∧ ¬ t.id = 0)).map (·.id))) :=
  c4_assessment_removal_scope
    (stubO [⟨7, "a@b.c", []⟩] []
      (some ⟨7, "a@b.c", [⟨3, "sadone"⟩, ⟨9, "vip"⟩]⟩) none none true true true)
    "k"
    { method := "POST", email := some "a@b.c", first_name := none,
      score := none, tagNames := .absent } ()
    (stubO [⟨7, "a@b.c", []⟩] []
      (some ⟨7, "a@b.c", [⟨4, "SARESULT2"⟩, ⟨9, "vip"⟩]⟩) none (some 5) true true true)
    "k"
    { method := "POST", email := some "a@b.c", first_name := none,
      score := none, tagNames := .absent } ()
    (Contact.mk 7 "a@b.c" []) [] (Contact.mk 7 "a@b.c" [⟨3, "sadone"⟩, ⟨9, "vip"⟩])
    (Contact.mk 7 "a@b.c" []) (Contact.mk 7 "a@b.c" [⟨4, "SARESULT2"⟩, ⟨9, "vip"⟩])
    rfl (by decide) rfl (by decide) (fun _ _ _ => rfl) (fun _ => rfl)
    rfl (by decide) rfl (by decide) (fun _ _ _ => rfl) (fun _ => rfl)

/-- **C4 (counterexample).** The second `contact.js` variant DELETEs a tag
named `saresultx`, which is **not** in the fixed assessment set
`{sadone, saresult1, saresult2, saresult3}` — its `startsWith("saresult")`
clause widens the removal scope beyond the claimed set. -/
theorem c4_counterexample_variantB :
    Call.removeTag 7 9 ∈
      (handlerB (stubO [⟨7, "a@b.c", []⟩] []
        (some ⟨7, "a@b.c", [⟨9, "saresultx"⟩]⟩) none (some 5) true true true)
        (some "k")
        { method := "POST", email := some "a@b.c", first_name := none,
          score := none, tagNames := .absent } ()).2.1 ∧
    assessmentSetB.contains (jsLower "saresultx") = false := by
  refine ⟨by decide, rfl⟩

/-- Dedupe keeps only elements of its input. -/
theorem dedupeCIAux_subset :
    ∀ (l seen : List String), ∀ x ∈ dedupeCIAux seen l, x ∈ l := by
  intro l
  induction l with
  | nil => intro seen x hx; simp [dedupeCIAux] at hx
  | cons t rest ih =>
    intro seen x hx
    simp only [dedupeCIAux] at hx
    by_cases h : seen.contains (jsLower t) = true
    · rw [if_pos h] at hx
      exact List.mem_cons_of_mem _ (ih seen x hx)
    · rw [if_neg h] at hx
      rcases List.mem_cons.mp hx with rfl | hx
      · exact List.mem_cons_self _ _
      · exact List.mem_cons_of_mem _ (ih _ x hx)

/-- Dedupe preserves the set of lowercased names (up to the seed). -/
theorem dedupeCIAux_lower_mem :
    ∀ (l seen : List String) (k : String), k ∈ l.map jsLower →
      k ∈ seen ∨ k ∈ (dedupeCIAux seen l).map jsLower := by
  intro l
  induction l with
  | nil => intro seen k hk; simp at hk
  | cons t rest ih =>
    intro seen k hk
    simp only [List.map_cons, List.mem_cons] at hk
    simp only [dedupeCIAux]
    by_cases h : jsLower t ∈ seen
    · rw [if_pos (by simpa using h)]
      rcases hk with rfl | hk
      · exact Or.inl h
      · exact ih seen k hk
    · rw [if_neg (by simpa using h)]
      rcases hk with rfl | hk
      · exact Or.inr (by simp)
      · rcases ih (jsLower t :: seen) k hk with hs | hr
        · rcases List.mem_cons.mp hs with rfl | hs
          · exact Or.inr (by simp)
          · exact Or.inl hs
        · exact Or.inr (by simp [hr])

/-- **C7 (amended).** Normalization before any CRM call, by variant: both
`contact.js` handlers trim/lowercase the email and stringify-and-trim the
score, and coerce `tagNames` to an array of trimmed entries plus the
injected `sadone` marker; but only the **second** variant drops empty
entries (it filters after trimming) and dedupes case-insensitively — the
first filters before trimming, so whitespace-only entries survive as `""`,
and it keeps case-variant duplicates (see the counterexample); `part_002`
normalizes nothing. -/
theorem c7_normalization_by_variant (e : Option String) (v : Option JsVal) (ti : TagsInput) :
    (normEmailA e = jsLower (jsTrim (e.getD "")) ∧
     normEmailB e = jsLower (jsTrim (e.getD ""))) ∧
    (normScoreA v = v.map (fun x => jsTrim (jsString x)) ∧
     normScoreB v = v.map (fun x => jsTrim (jsString x))) ∧
    ((normTagsB ti).map jsLower).Nodup ∧
    (∀ t ∈ normTagsB ti, t = "sadone" ∨
      (t ≠ "" ∧ ∃ s ∈ coerceTagsB ti, t = jsTrim s)) ∧
    ("sadone" ∈ (normTagsB ti).map jsLower) ∧
    (∀ t ∈ normTagsA ti, t = "sadone" ∨ ∃ s ∈ coerceTagsA ti, t = jsTrim s) := by
  refine ⟨⟨rfl, rfl⟩, ⟨rfl, rfl⟩, normTagsB_lower_nodup ti, ?_, ?_, ?_⟩
  · intro t ht
    have ht2 := dedupeCIAux_subset _ [] t ht
    have ht3 : t ∈ cleanTagsB ti ∨ t = "sadone" := by
      simp only [ensureSadoneB] at ht2
      split at ht2
      · exact Or.inl ht2
      · rcases List.mem_cons.mp ht2 with rfl | h
        · exact Or.inr rfl
        · exact Or.inl h
    rcases ht3 with h | rfl
    · right
      simp only [cleanTagsB, List.mem_filter, List.mem_map] at h
      obtain ⟨⟨s, hs, rfl⟩, hne⟩ := h
      exact ⟨by simpa using hne, s, hs, rfl⟩
    · exact Or.inl rfl
  · have hsl : "sadone" ∈ (ensureSadoneB (cleanTagsB ti)).map jsLower := by
      simp only [ensureSadoneB]
      split
      · next h => simpa using h
      · simp
        left
        decide
    rcases dedupeCIAux_lower_mem _ [] _ hsl with h | h
    · simp at h
    · exact h
  · intro t ht
    simp only [normTagsA] at ht
    split at ht
    · right
      rcases List.mem_map.mp ht with ⟨s, hs, rfl⟩
      exact ⟨s, (List.mem_filter.mp hs).1, rfl⟩
    · rcases List.mem_cons.mp ht with rfl | ht
      · exact Or.inl rfl
      · right
        rcases List.mem_map.mp ht with ⟨s, hs, rfl⟩
        exact ⟨s, (List.mem_filter.mp hs).1, rfl⟩

/-- **C7 (counterexample).** The first `contact.js` variant does not dedupe
`tagNames` case-insensitively: `["Foo", "foo"]` normalizes to
`["sadone", "Foo", "foo"]`, and with a remote tag `{5, "foo"}` the handler
resolves and assigns id 5 twice. -/
theorem c7_counterexample_variantA :
    normTagsA (.arr ["Foo", "foo"]) = ["sadone", "Foo", "foo"] ∧
    ¬ ((normTagsA (.arr ["Foo", "foo"])).map jsLower).Nodup ∧
    (handlerA (stubO [⟨7, "a@b.c", []⟩] [⟨5, "foo"⟩] (some ⟨7, "a@b.c", []⟩)
        none none true true true) (some "k")
      { method := "POST", email := some "a@b.c", first_name := none,
        score := none, tagNames := .arr ["Foo", "foo"] } ()).1.assignedTagIds
      = [5, 5] := by
  refine ⟨rfl, by decide, rfl⟩

/-- **C9.** Tag failures never change the HTTP status: once the contact
phase of the first `contact.js` handler succeeds (find hits, PATCH ok,
contact fetches return a body), the response is `200` with `success: true`
for **every** oracle behaviour of the tag endpoints — failed resolutions
and assignments surface only in the `tagErrors`/`assignErrors` arrays.
And in `part_001`'s resolution loop a failed tag creation is silently
omitted: with every `POST /tags` failing and no name resolvable from the
map, the resolved list is empty and no error is recorded anywhere (the
loop has no error output). -/
theorem c9_tag_failures_keep_200
    {σ σ2 : Type} (o : Oracle σ) (o2 : Oracle σ2) (key : String)
    (req : Request) (s0 : σ) (c : Contact) (cs : List Contact) (ctc : Contact)
    (hm : req.method = "POST")
    (he : ¬ normEmailA req.email = "")
    (hfind : (o.findContact (normEmailA req.email) 10 s0).1 = (true, c :: cs))
    (hid : ¬ c.id = 0)
    (hpatch : ∀ fn fl s, (o.patchContact c.id fn fl s).1.1 = true)
    (hget : ∀ s, (o.getContact c.id s).1.2 = some ctc) :
    (handlerA o (some key) req s0).1.status = 200 ∧
    (handlerA o (some key) req s0).1.success = true ∧
    (∀ (names : List String) (m : List (String × Nat)) (s : σ2),
      (∀ n s', (o2.createTag n s').1.1 = false) →
      (∀ n ∈ names, m.lookup (jsLower n) = none) →
      (resolveTagsP1 o2 names m s).1 = []) := by
  refine ⟨?_, ?_, ?_⟩
  · simp [handlerA, contactSyncTailA, hm, he, hfind, hid, hpatch, hget]
  · simp [handlerA, contactSyncTailA, hm, he, hfind, hid, hpatch, hget]
  · intro names
    induction names with
    | nil => intro m s _ _; simp [resolveTagsP1]
    | cons tname rest ih =>
      intro m s hfail hlk
      simp only [resolveTagsP1]
      rw [hlk tname (List.mem_cons_self _ _)]
      rw [if_neg (by simp [hfail])]
      exact ih m _ hfail (fun n hn => hlk n (List.mem_cons_of_mem _ hn))

/-- Witness for C9: the tag list is empty (every resolution fails with
`"Tag not found"`) and every assignment would fail, yet the response is
200 / `success: true`, with the failures only in the error arrays; and
`part_001`'s loop, with all creations failing, returns no ids and no
errors. -/
theorem c9_witness :
    (handlerA (stubO [⟨7, "a@b.c", []⟩] [] (some ⟨7, "a@b.c", []⟩)
        none none true false true) (some "k")
      { method := "POST", email := some "a@b.c", first_name := none,
        score := none, tagNames := .arr ["x"] } ()).1.status = 200 ∧
    (handlerA (stubO [⟨7, "a@b.c", []⟩] [] (some ⟨7, "a@b.c", []⟩)
        none none true false true) (some "k")
      { method := "POST", email := some "a@b.c", first_name := none,
        score := none, tagNames := .arr ["x"] } ()).1.success = true ∧
    (∀ (names : List String) (m : List (String × Nat)) (s : Unit),
      (∀ n s', ((stubO [] [] none none none true true true).createTag n s').1.1 = false) →
      (∀ n ∈ names, m.lookup (jsLower n) = none) →
      (resolveTagsP1 (stubO [] [] none none none true true true) names m s).1 = []) :=
  c9_tag_failures_keep_200
    (stubO [⟨7, "a@b.c", []⟩] [] (some ⟨7, "a@b.c", []⟩) none none true false true)
    (stubO [] [] none none none true true true) "k"
    { method := "POST", email := some "a@b.c", first_name := none,
      score := none, tagNames := .arr ["x"] } ()
    (Contact.mk 7 "a@b.c" []) [] (Contact.mk 7 "a@b.c" [])
    rfl (by decide) rfl (by decide) (fun _ _ _ => rfl) (fun _ => rfl)

/- ### Server-state invariants for the idempotency claim -/

/-- The `(id, email)` skeleton of the stored contacts: the part of the
server state that determines find-by-email results. -/
def idEmails (s : Server) : List (Nat × String) :=
  s.contacts.map (fun c => (c.id, c.email))

/-- Removing a tag from a contact leaves ids and emails unchanged. -/
theorem idEmails_removeTag (cid tid : Nat) (s : Server) :
    idEmails ((serverOracle.removeTag cid tid s).2) = idEmails s := by
  simp only [serverOracle, idEmails, List.map_map]
  apply List.map_congr_left
  intro c _
  by_cases h : c.id = cid <;> simp [h]

/-- Assigning a tag to a contact leaves ids and emails unchanged. -/
theorem idEmails_assignTag (cid : Nat) (b : AssignBody) (s : Server) :
    idEmails ((serverOracle.assignTag cid b s).2) = idEmails s := by
  simp only [serverOracle, idEmails, List.map_map]
  apply List.map_congr_left
  intro c _
  by_cases h : c.id = cid <;> simp [h]

/-- The removal loop preserves the contact skeleton. -/
theorem idEmails_removeLoopA (cid : Nat) (tags : List Tag) (s : Server) :
    idEmails ((removeLoopA serverOracle cid tags s).2.2) = idEmails s := by
  induction tags generalizing s with
  | nil => simp [removeLoopA]
  | cons t rest ih =>
    by_cases h : jsLower t.name ∈ removeSetA
    · simp [removeLoopA, h, ih, idEmails_removeTag]
    · simp [removeLoopA, h, ih]

/-- The assignment loop preserves the contact skeleton. -/
theorem idEmails_assignLoopA (cid : Nat) (tids : List Nat) (s : Server) :
    idEmails ((assignLoopA serverOracle cid tids s).2.2.2) = idEmails s := by
  induction tids generalizing s with
  | nil => simp [assignLoopA]
  | cons tid rest ih =>
    simp only [assignLoopA]
    rw [ih, idEmails_assignTag]

/-- Equal skeletons give equal find-by-email id lists. -/
theorem filter_email_ids (s s' : Server) (h : idEmails s = idEmails s')
    (e : String) :
    (s.contacts.filter (fun c => c.email = e)).map (·.id) =
    (s'.contacts.filter (fun c => c.email = e)).map (·.id) := by
  have key : ∀ (t : Server),
      (t.contacts.filter (fun c => c.email = e)).map (·.id) =
      ((idEmails t).filter (fun p => p.2 = e)).map (·.1) := by
    intro t
    simp only [idEmails, List.filter_map, List.map_map]
    rfl
  rw [key s, key s', h]

/-- Equal skeletons give equal id lists. -/
theorem contact_ids_eq (s s' : Server) (h : idEmails s = idEmails s') :
    s.contacts.map (·.id) = s'.contacts.map (·.id) := by
  have key : ∀ (t : Server), t.contacts.map (·.id) = (idEmails t).map (·.1) := by
    intro t
    simp [idEmails, List.map_map]
  rw [key s, key s', h]

/-- A stored contact id can always be fetched from the server. -/
theorem getContact_isSome (cid : Nat) (s : Server)
    (hmem : cid ∈ s.contacts.map (·.id)) :
    ∃ ctc, (serverOracle.getContact cid s).1.2 = some ctc := by
  simp only [serverOracle]
  rcases List.mem_map.mp hmem with ⟨c, hc, rfl⟩
  have : (s.contacts.find? (fun x => x.id = c.id)).isSome := by
    rw [List.find?_isSome]
    exact ⟨c, hc, by simp⟩
  rcases Option.isSome_iff_exists.mp this with ⟨ctc, hctc⟩
  exact ⟨ctc, hctc⟩

/- Definitional reductions of the server oracle, for rewriting. -/
theorem serverOracle_listTags (l : Option Nat) (s : Server) :
    serverOracle.listTags l s = ((true, s.tags), s) := rfl

theorem serverOracle_getContact_state (cid : Nat) (s : Server) :
    (serverOracle.getContact cid s).2 = s := rfl

theorem serverOracle_find (e : String) (lim : Nat) (s : Server) :
    serverOracle.findContact e lim s =
      ((true, (s.contacts.filter (fun c => c.email = e)).take lim), s) := rfl

theorem serverOracle_patch (cid : Nat) (fn : Option String)
    (fl : List (String × String)) (s : Server) :
    serverOracle.patchContact cid fn fl s = ((true, ""), s) := rfl

theorem serverOracle_create (e fn : Option String)
    (fl : List (String × String)) (tg : List Nat) (s : Server) :
    serverOracle.createContact e fn fl tg s =
      ({ ok := true, status := 201, idOpt := some s.nextId, text := "" },
       { s with contacts := s.contacts ++ [⟨s.nextId, e.getD "", []⟩],
                nextId := s.nextId + 1 }) := rfl

/-- Running the first handler's post-upsert tail against the CRM server:
it succeeds, echoes `cid`, and preserves the contact skeleton. -/
theorem contactSyncTailA_server (tagNames : List String) (cid : Nat)
    (tr2 : List Call) (s2 : Server)
    (hmem : cid ∈ s2.contacts.map (·.id)) :
    (contactSyncTailA serverOracle tagNames cid tr2 s2).1.success = true ∧
    (contactSyncTailA serverOracle tagNames cid tr2 s2).1.contactId = some cid ∧
    (contactSyncTailA serverOracle tagNames cid tr2 s2).1.status = 200 ∧
    idEmails (contactSyncTailA serverOracle tagNames cid tr2 s2).2.2 =
      idEmails s2 := by
  obtain ⟨ctc, hctc⟩ := getContact_isSome cid s2 hmem
  have hid6 : idEmails ((assignLoopA serverOracle cid
      ((resolveA s2.tags tagNames).1)
      ((removeLoopA serverOracle cid ctc.tags s2).2.2)).2.2.2) =
      idEmails s2 := by
    rw [idEmails_assignLoopA, idEmails_removeLoopA]
  have hmem6 : cid ∈ ((assignLoopA serverOracle cid
      ((resolveA s2.tags tagNames).1)
      ((removeLoopA serverOracle cid ctc.tags s2).2.2)).2.2.2).contacts.map (·.id) := by
    rw [contact_ids_eq _ s2 hid6]
    exact hmem
  obtain ⟨fc, hfc⟩ := getContact_isSome cid _ hmem6
  simp [contactSyncTailA, serverOracle_listTags, serverOracle_getContact_state,
    hctc, hfc, hid6]

/-- The post-upsert tail never issues a `POST /contacts` (given, as at its
call sites, a creation-free prefix trace). -/
theorem contactSyncTailA_no_createContact {σ : Type} (o : Oracle σ)
    (tagNames : List String) (cid : Nat) (tr2 : List Call) (s2 : σ)
    (h2 : ∀ call ∈ tr2, isCreateContactCall call = false) :
    ∀ call ∈ (contactSyncTailA o tagNames cid tr2 s2).2.1,
      isCreateContactCall call = false := by
  intro call hc
  simp only [contactSyncTailA] at hc
  split at hc
  · simp at hc
    rcases hc with hc | rfl | rfl
    · exact h2 call hc
    · rfl
    · rfl
  · split at hc
    · simp [removeLoopA_calls, assignLoopA_calls] at hc
      rcases hc with hc | rfl | rfl | ⟨t, -, rfl⟩ | ⟨tid, -, rfl⟩ | rfl
      all_goals first | exact h2 call hc | rfl
    · simp [removeLoopA_calls, assignLoopA_calls] at hc
      rcases hc with hc | rfl | rfl | ⟨t, -, rfl⟩ | ⟨tid, -, rfl⟩ | rfl
      all_goals first | exact h2 call hc | rfl

/-- **C5.** Idempotency of contact identity against the idealized CRM
server: for any well-formed server state, the first invocation succeeds
(finding or creating a contact for the normalized email), and re-invoking
the handler with the same payload on the resulting state returns the same
`contactId` and issues no second `POST /contacts`. -/
theorem c5_same_payload_idempotent (key : String) (req : Request) (s0 : Server)
    (hm : req.method = "POST")
    (he : ¬ normEmailA req.email = "")
    (hwf : s0.WF) :
    (handlerA serverOracle (some key) req s0).1.success = true ∧
    ((handlerA serverOracle (some key) req
        (handlerA serverOracle (some key) req s0).2.2).1.contactId =
      (handlerA serverOracle (some key) req s0).1.contactId) ∧
    (∀ call ∈ (handlerA serverOracle (some key) req
        (handlerA serverOracle (some key) req s0).2.2).2.1,
      isCreateContactCall call = false) := by
  rcases hfil : s0.contacts.filter (fun c => c.email = normEmailA req.email)
    with _ | ⟨c, rest⟩
  · -- no contact with this email yet: run 1 creates one
    have hν : ¬ s0.nextId = 0 := hwf.1
    have hr1 : handlerA serverOracle (some key) req s0 =
        contactSyncTailA serverOracle (normTagsA req.tagNames) s0.nextId
          [Call.findContact (normEmailA req.email) 10,
           Call.createContact (some (normEmailA req.email)) none
             (fieldsA (normFirstA req.first_name) (normScoreA req.score)) []]
          { s0 with
              contacts := s0.contacts ++ [⟨s0.nextId, normEmailA req.email, []⟩],
              nextId := s0.nextId + 1 } := by
      simp [handlerA, serverOracle_find, serverOracle_create, hfil, hm, he]
    have hmem : s0.nextId ∈ ({ s0 with
        contacts := s0.contacts ++ [⟨s0.nextId, normEmailA req.email, []⟩],
        nextId := s0.nextId + 1 } : Server).contacts.map (·.id) := by simp
    have htail := contactSyncTailA_server (normTagsA req.tagNames) s0.nextId
      [Call.findContact (normEmailA req.email) 10,
       Call.createContact (some (normEmailA req.email)) none
         (fieldsA (normFirstA req.first_name) (normScoreA req.score)) []]
      _ hmem
    have hfe := filter_email_ids _ _ htail.2.2.2 (normEmailA req.email)
    have hfe2 : (({ s0 with
        contacts := s0.contacts ++ [⟨s0.nextId, normEmailA req.email, []⟩],
        nextId := s0.nextId + 1 } : Server).contacts.filter
          (fun c => c.email = normEmailA req.email)) =
        [⟨s0.nextId, normEmailA req.email, []⟩] := by
      simp [List.filter_append, hfil]
    rw [hfe2] at hfe
    rcases hfil2 : (contactSyncTailA serverOracle (normTagsA req.tagNames)
        s0.nextId
        [Call.findContact (normEmailA req.email) 10,
         Call.createContact (some (normEmailA req.email)) none
           (fieldsA (normFirstA req.first_name) (normScoreA req.score)) []]
        { s0 with
            contacts := s0.contacts ++ [⟨s0.nextId, normEmailA req.email, []⟩],
            nextId := s0.nextId + 1 }).2.2.contacts.filter
          (fun c => c.email = normEmailA req.email) with _ | ⟨c2, rest2⟩
    · rw [hfil2] at hfe
      simp at hfe
    · rw [hfil2] at hfe
      simp only [List.map_cons, List.map_nil, List.cons.injEq] at hfe
      have hc2 : c2.id = s0.nextId := hfe.1
      have hc2id : ¬ c2.id = 0 := by rw [hc2]; exact hν
      have hmem2 : c2.id ∈ ((contactSyncTailA serverOracle
          (normTagsA req.tagNames) s0.nextId
          [Call.findContact (normEmailA req.email) 10,
           Call.createContact (some (normEmailA req.email)) none
             (fieldsA (normFirstA req.first_name) (normScoreA req.score)) []]
          { s0 with
              contacts := s0.contacts ++ [⟨s0.nextId, normEmailA req.email, []⟩],
              nextId := s0.nextId + 1 }).2.2).contacts.map (·.id) := by
        refine List.mem_map_of_mem _ ?_
        have : c2 ∈ c2 :: rest2 := List.mem_cons_self _ _
        rw [← hfil2] at this
        exact (List.mem_filter.mp this).1
      have hr2 : handlerA serverOracle (some key) req
          (handlerA serverOracle (some key) req s0).2.2 =
          contactSyncTailA serverOracle (normTagsA req.tagNames) c2.id
            [Call.findContact (normEmailA req.email) 10,
             Call.patchContact c2.id none
               (fieldsA (normFirstA req.first_name) (normScoreA req.score))]
            (handlerA serverOracle (some key) req s0).2.2 := by
        rw [hr1]
        simp [handlerA, serverOracle_find, serverOracle_patch, hfil2, hm, he, hc2id]
      have htail2 := contactSyncTailA_server (normTagsA req.tagNames) c2.id
        [Call.findContact (normEmailA req.email) 10,
         Call.patchContact c2.id none
           (fieldsA (normFirstA req.first_name) (normScoreA req.score))]
        _ hmem2
      refine ⟨by rw [hr1]; exact htail.1, ?_, ?_⟩
      · rw [hr2, hr1]
        rw [htail2.2.1, htail.2.1, hc2]
      · rw [hr2]
        refine contactSyncTailA_no_createContact _ _ _ _ _ ?_
        intro call hcc
        simp at hcc
        rcases hcc with rfl | rfl <;> rfl
  · -- a contact with this email exists: its id is reused in both runs
    have hc0 : c ∈ s0.contacts := by
      have : c ∈ s0.contacts.filter (fun c => c.email = normEmailA req.email) := by
        rw [hfil]; exact List.mem_cons_self _ _
      exact (List.mem_filter.mp this).1
    have hcid : ¬ c.id = 0 := hwf.2 c hc0
    have hr1 : handlerA serverOracle (some key) req s0 =
        contactSyncTailA serverOracle (normTagsA req.tagNames) c.id
          [Call.findContact (normEmailA req.email) 10,
           Call.patchContact c.id none
             (fieldsA (normFirstA req.first_name) (normScoreA req.score))]
          s0 := by
      simp [handlerA, serverOracle_find, serverOracle_patch, hfil, hm, he, hcid]
    have hmem : c.id ∈ s0.contacts.map (·.id) := List.mem_map_of_mem _ hc0
    have htail := contactSyncTailA_server (normTagsA req.tagNames) c.id
      [Call.findContact (normEmailA req.email) 10,
       Call.patchContact c.id none
         (fieldsA (normFirstA req.first_name) (normScoreA req.score))]
      s0 hmem
    have hfe := filter_email_ids _ _ htail.2.2.2 (normEmailA req.email)
    rw [hfil] at hfe
    rcases hfil2 : (contactSyncTailA serverOracle (normTagsA req.tagNames) c.id
        [Call.findContact (normEmailA req.email) 10,
         Call.patchContact c.id none
           (fieldsA (normFirstA req.first_name) (normScoreA req.score))]
        s0).2.2.contacts.filter
          (fun c => c.email = normEmailA req.email) with _ | ⟨c2, rest2⟩
    · rw [hfil2] at hfe
      simp at hfe
    · rw [hfil2] at hfe
      simp only [List.map_cons, List.cons.injEq] at hfe
      have hc2 : c2.id = c.id := hfe.1
      have hc2id : ¬ c2.id = 0 := by rw [hc2]; exact hcid
      have hmem2 : c2.id ∈ ((contactSyncTailA serverOracle
          (normTagsA req.tagNames) c.id
          [Call.findContact (normEmailA req.email) 10,
           Call.patchContact c.id none
             (fieldsA (normFirstA req.first_name) (normScoreA req.score))]
          s0).2.2).contacts.map (·.id) := by
        refine List.mem_map_of_mem _ ?_
        have : c2 ∈ c2 :: rest2 := List.mem_cons_self _ _
        rw [← hfil2] at this
        exact (List.mem_filter.mp this).1
      have hr2 : handlerA serverOracle (some key) req
          (handlerA serverOracle (some key) req s0).2.2 =
          contactSyncTailA serverOracle (normTagsA req.tagNames) c2.id
            [Call.findContact (normEmailA req.email) 10,
             Call.patchContact c2.id none
               (fieldsA (normFirstA req.first_name) (normScoreA req.score))]
            (handlerA serverOracle (some key) req s0).2.2 := by
        rw [hr1]
        simp [handlerA, serverOracle_find, serverOracle_patch, hfil2, hm, he, hc2id]
      have htail2 := contactSyncTailA_server (normTagsA req.tagNames) c2.id
        [Call.findContact (normEmailA req.email) 10,
         Call.patchContact c2.id none
           (fieldsA (normFirstA req.first_name) (normScoreA req.score))]
        _ hmem2
      refine ⟨by rw [hr1]; exact htail.1, ?_, ?_⟩
      · rw [hr2, hr1]
        rw [htail2.2.1, htail.2.1, hc2]
      · rw [hr2]
        refine contactSyncTailA_no_createContact _ _ _ _ _ ?_
        intro call hcc
        simp at hcc
        rcases hcc with rfl | rfl <;> rfl

/-- Witness for C5 at a concrete state: an empty CRM, one payload run
twice — the first run creates contact 1, the second returns the same id
and creates nothing. -/
theorem c5_witness :
    (handlerA serverOracle (some "k")
      { method := "POST", email := some "a@b.c", first_name := none,
        score := none, tagNames := .absent } (Server.mk [] [] 1)).1.success = true ∧
    ((handlerA serverOracle (some "k")
      { method := "POST", email := some "a@b.c", first_name := none,
        score := none, tagNames := .absent }
      (handlerA serverOracle (some "k")
        { method := "POST", email := some "a@b.c", first_name := none,
          score := none, tagNames := .absent } (Server.mk [] [] 1)).2.2).1.contactId =
      (handlerA serverOracle (some "k")
        { method := "POST", email := some "a@b.c", first_name := none,
          score := none, tagNames := .absent } (Server.mk [] [] 1)).1.contactId) ∧
    (∀ call ∈ (handlerA serverOracle (some "k")
      { method := "POST", email := some "a@b.c", first_name := none,
        score := none, tagNames := .absent }
      (handlerA serverOracle (some "k")
        { method := "POST", email := some "a@b.c", first_name := none,
          score := none, tagNames := .absent } (Server.mk [] [] 1)).2.2).2.1,
      isCreateContactCall call = false) :=
  c5_same_payload_idempotent "k"
    { method := "POST", email := some "a@b.c", first_name := none,
      score := none, tagNames := .absent } (Server.mk [] [] 1)
    rfl (by decide) ⟨by decide, by simp⟩
